import Mathlib

/-!
Verification development for the wezterm-settings-ui repository.

The development shallowly embeds, in Lean:
  * the configuration data model (`src-tauri/src/models/config.rs`),
  * the tolerant Lua extraction engine (`src-tauri/src/lua/parser.rs`),
  * the serde-JSON export/import value layer (`src/main.rs`),
  * the interactive editor state machine (`src/app.rs`),
and proves properties of the embedded code.

Machine floats (`f32`) are modelled as rationals; machine integers
(`u32`, `usize`) as `Nat`.  Strings are Lean `String`s; the character-level
scanning functions work on `List Char`.  Each regex pattern of the source
is translated into a deterministic scanner that reproduces the leftmost
match and the capture of that regex on the shapes of pattern actually used
(literal keys, `\s*`, punctuation classes, quoted / numeric / boolean
captures); the optional `(?:config\.)?` prefix does not change captures
and is dropped.
-/

set_option maxRecDepth 10000
set_option maxHeartbeats 4000000

/-! ## Character and string utilities -/

/-- The double-quote character. -/
def dq : Char := Char.ofNat 34

/-- The single-quote character. -/
def sqC : Char := Char.ofNat 39

/-- Regex `\s`: whitespace characters as matched on ASCII input. -/
def isSpaceC (c : Char) : Bool :=
  c = ' ' ∨ c = Char.ofNat 9 ∨ c = Char.ofNat 10 ∨ c = Char.ofNat 13 ∨
  c = Char.ofNat 11 ∨ c = Char.ofNat 12

/-- Regex `\d`. -/
def isDigitC (c : Char) : Bool := '0' ≤ c ∧ c ≤ '9'

/-- Regex class `["']`. -/
def isQuoteC (c : Char) : Bool := c = dq ∨ c = sqC

/-- ASCII lowercasing of a character (models `char::to_lowercase`). -/
def lowerChar (c : Char) : Char :=
  if 'A' ≤ c ∧ c ≤ 'Z' then Char.ofNat (c.toNat + 32) else c

/-- ASCII uppercasing of a character (models `char::to_uppercase`). -/
def upperChar (c : Char) : Char :=
  if 'a' ≤ c ∧ c ≤ 'z' then Char.ofNat (c.toNat - 32) else c

/-- Models Rust `str::to_lowercase` on ASCII strings. -/
def lowerStr (s : String) : String := (s.toList.map lowerChar).asString

/-- Models Rust `str::to_uppercase` on ASCII strings. -/
def upperStr (s : String) : String := (s.toList.map upperChar).asString

/-- Does `p` occur as a prefix of `s`? -/
def startsWithL : List Char → List Char → Bool
  | [], _ => true
  | _ :: _, [] => false
  | p :: ps, c :: cs => p = c ∧ startsWithL ps cs

/-- Does `pat` occur as a contiguous substring of `hay`?
Models Rust `str::contains` on strings. -/
def containsSubL (hay pat : List Char) : Bool :=
  match hay with
  | [] => startsWithL pat []
  | _ :: rest => startsWithL pat hay ∨ containsSubL rest pat

/-- `String`-level substring containment (models `str::contains`). -/
def containsSubStr (hay pat : String) : Bool := containsSubL hay.toList pat.toList

/-- Numeric value of a digit list (most significant first). -/
def digitsVal : List Char → Nat
  | [] => 0
  | c :: cs => digitsVal cs + (c.toNat - 48) * 10 ^ cs.length

/-- Remove the last character of a string (models Rust `String::pop`). -/
def strPop (s : String) : String := s.toList.dropLast.asString

/-- Append one character to a string (models Rust `String::push`). -/
def strPush (s : String) (c : Char) : String := (s.toList ++ [c]).asString

/-! ## Pattern machinery

Each regex used by the parser is a sequence of: literal pieces, `\s*`
runs, and punctuation-class runs, followed by a single capture
(`(["']([^"']+)["'])`, `(\d+(?:\.\d+)?)`, `(\d+)`, `(true|false)` or the
array-interior `([^}]+)`).  `matchPre` consumes the part before the
capture; a capture function consumes the capture at that point.  `scanFor`
reproduces the regex engine's leftmost-match search. -/

/-- One non-capturing component of a translated regex. -/
inductive Tok where
  | lit (s : String)
  | spaces
  | clsStar (cs : List Char)
deriving DecidableEq

/-- Match the non-capturing components at the head of `s`; return the rest.-/
def matchPre : List Tok → List Char → Option (List Char)
  | [], s => some s
  | Tok.lit l :: ts, s =>
    if startsWithL l.toList s then matchPre ts (s.drop l.toList.length) else none
  | Tok.spaces :: ts, s => matchPre ts (s.dropWhile isSpaceC)
  | Tok.clsStar cs :: ts, s => matchPre ts (s.dropWhile (fun c => c ∈ cs))

/-- Capture `["']([^"']+)["']`: an opening quote, a nonempty run of
non-quote characters, a closing quote. -/
def capQuoted (s : List Char) : Option String :=
  match s with
  | [] => none
  | c :: rest =>
    if isQuoteC c then
      let run := rest.takeWhile (fun d => ¬ isQuoteC d)
      let rest2 := rest.dropWhile (fun d => ¬ isQuoteC d)
      match rest2 with
      | [] => none
      | _ :: _ => if run.isEmpty then none else some run.asString
    else none

/-- Capture `(\d+(?:\.\d+)?)` parsed with `str::parse::<f32>`, modelled
exactly on rationals: the digits `d₁…dₘ.f₁…fₖ` denote
`d₁…dₘf₁…fₖ / 10^k` (built with `Rat.ofScientific`, the function behind
decimal literals). -/
def capNumber (s : List Char) : Option ℚ :=
  let intPart := s.takeWhile isDigitC
  let rest := s.dropWhile isDigitC
  if intPart.isEmpty then none
  else
    match rest with
    | '.' :: rest2 =>
      let fracPart := rest2.takeWhile isDigitC
      if fracPart.isEmpty then some (digitsVal intPart)
      else some (Rat.ofScientific (digitsVal (intPart ++ fracPart)) true fracPart.length)
    | _ => some (digitsVal intPart)

/-- Capture `(\d+)` parsed with `str::parse::<f32>`. -/
def capIntDigits (s : List Char) : Option ℚ :=
  let intPart := s.takeWhile isDigitC
  if intPart.isEmpty then none else some (digitsVal intPart)

/-- Capture `(true|false)`. -/
def capBool (s : List Char) : Option Bool :=
  if startsWithL "true".toList s then some true
  else if startsWithL "false".toList s then some false
  else none

/-- Capture `([^}]+)\s*\}`: the interior of a brace-delimited array
literal (leading `\s*` folded into the capture; the interior only feeds a
quoted-string extraction, which is insensitive to surrounding spaces). -/
def capInner (s : List Char) : Option (List Char) :=
  let run := s.takeWhile (fun c => c ≠ Char.ofNat 125)
  let rest := s.dropWhile (fun c => c ≠ Char.ofNat 125)
  match rest with
  | [] => none
  | _ :: _ => if run.isEmpty then none else some run

/-- Leftmost-match search: try the pattern anchored at every suffix, from
the left. -/
def scanFor (pre : List Tok) (cap : List Char → Option α) : List Char → Option α
  | [] => (matchPre pre []).bind cap
  | s@(_ :: rest) =>
    match (matchPre pre s).bind cap with
    | some v => some v
    | none => scanFor pre cap rest

/-- All quoted strings of a fragment, in order: models
`captures_iter` with pattern `["']([^"']+)["']`. -/
def allQuotedF : Nat → List Char → List String
  | 0, _ => []
  | _ + 1, [] => []
  | n + 1, c :: rest =>
    if isQuoteC c then
      let run := rest.takeWhile (fun d => ¬ isQuoteC d)
      let rest2 := rest.dropWhile (fun d => ¬ isQuoteC d)
      match rest2 with
      | [] => []
      | _ :: rest3 =>
        if run.isEmpty then allQuotedF n rest
        else run.asString :: allQuotedF n rest3
    else allQuotedF n rest

/-- All quoted strings of a fragment, in order. -/
def allQuoted (s : List Char) : List String := allQuotedF s.length s

/-- Pattern prefix `KEY\s*=\s*` (the optional `config\.` prefix of the
source regexes never changes the capture and is dropped). -/
def simplePre (key : String) : List Tok :=
  [Tok.lit key, Tok.spaces, Tok.lit "=", Tok.spaces]

/-- Punctuation tolerated between the segments of a nested-table path:
regex class `[\.\[\]"']`. -/
def pathCls : List Char := ['.', '[', ']', dq, sqC]

/-- Pattern prefix for a nested-table path: key segments joined by
`\s*[\.\[\]"']*\s*`, then `\s*=\s*`. -/
def nestedPre (keys : List String) : List Tok :=
  match keys with
  | [] => [Tok.spaces, Tok.lit "=", Tok.spaces]
  | [k] => [Tok.lit k, Tok.spaces, Tok.lit "=", Tok.spaces]
  | k :: rest =>
    Tok.lit k :: Tok.spaces :: Tok.clsStar pathCls :: Tok.spaces :: nestedPre rest

/-! ## Extraction helpers (`parser.rs` helper functions) -/

/-- `extract_string_value` with pattern `KEY\s*=\s*["']([^"']+)["']`. -/
def extractStringValue (content : List Char) (pre : List Tok) : Option String :=
  scanFor pre capQuoted content

/-- `extract_number_value` with pattern `KEY\s*=\s*(\d+(?:\.\d+)?)`. -/
def extractNumberValue (content : List Char) (pre : List Tok) : Option ℚ :=
  scanFor pre capNumber content

/-- `extract_number_value` with a digits-only pattern `KEY\s*=\s*(\d+)`. -/
def extractIntValue (content : List Char) (pre : List Tok) : Option ℚ :=
  scanFor pre capIntDigits content

/-- `extract_bool_value` with pattern `KEY\s*=\s*(true|false)`. -/
def extractBoolValue (content : List Char) (pre : List Tok) : Option Bool :=
  scanFor pre capBool content

/-- `extract_nested_string`. -/
def extractNestedString (content : List Char) (keys : List String) : Option String :=
  scanFor (nestedPre keys) capQuoted content

/-- `extract_nested_number`. -/
def extractNestedNumber (content : List Char) (keys : List String) : Option ℚ :=
  scanFor (nestedPre keys) capNumber content

/-- `extract_color_array`: first match of `NAME\s*=\s*\{\s*([^}]+)\s*\}`,
then all quoted strings of the captured interior; empty result is `none`. -/
def extractColorArray (content : List Char) (name : String) : Option (List String) :=
  match scanFor [Tok.lit name, Tok.spaces, Tok.lit "=", Tok.spaces, Tok.lit "\x7b"]
      capInner content with
  | none => none
  | some inner =>
    let colors := allQuoted inner
    if colors.isEmpty then none else some colors

/-! ## Configuration data model (`src-tauri/src/models/config.rs`) -/

/-- `TabColors`. -/
structure TabColors where
  bg_color : String
  fg_color : String
  italic : Option Bool
deriving DecidableEq

/-- `TabBarColors`. -/
structure TabBarColors where
  background : String
  active_tab : TabColors
  inactive_tab : TabColors
  inactive_tab_hover : TabColors
  new_tab : TabColors
  new_tab_hover : TabColors
deriving DecidableEq

/-- A fixed-size 8-element array of strings, models Rust `[String; 8]`. -/
structure StrArr8 where
  c0 : String
  c1 : String
  c2 : String
  c3 : String
  c4 : String
  c5 : String
  c6 : String
  c7 : String
deriving DecidableEq

/-- The elements of the array, in order. -/
def StrArr8.toList (a : StrArr8) : List String :=
  [a.c0, a.c1, a.c2, a.c3, a.c4, a.c5, a.c6, a.c7]

/-- Models `Vec<String>::try_into::<[String; 8]>`: succeeds exactly on
8-element lists. -/
def StrArr8.ofList : List String → Option StrArr8
  | [x0, x1, x2, x3, x4, x5, x6, x7] => some ⟨x0, x1, x2, x3, x4, x5, x6, x7⟩
  | _ => none

/-- `ColorScheme`. -/
structure ColorScheme where
  foreground : String
  background : String
  cursor_bg : String
  cursor_border : String
  cursor_fg : String
  selection_bg : String
  selection_fg : String
  ansi : StrArr8
  brights : StrArr8
  tab_bar : TabBarColors
  visual_bell : Option String
  scrollbar_thumb : Option String
  split : Option String
deriving DecidableEq

/-- `FontWeight`. -/
inductive FontWeight where
  | Thin | ExtraLight | Light | Regular | Medium | DemiBold | Bold | ExtraBold | Black
deriving DecidableEq

/-- `FreetypeTarget`. -/
inductive FreetypeTarget where
  | Normal | Light | Mono | HorizontalLcd
deriving DecidableEq

/-- `FontConfig`. -/
structure FontConfig where
  family : String
  size : ℚ
  weight : Option FontWeight
  freetype_load_target : Option FreetypeTarget
  freetype_render_target : Option FreetypeTarget
deriving DecidableEq

/-- `Padding`. -/
structure Padding where
  left : ℚ
  right : ℚ
  top : ℚ
  bottom : ℚ
deriving DecidableEq

/-- `HSB`. -/
structure HSB where
  hue : ℚ
  saturation : ℚ
  brightness : ℚ
deriving DecidableEq

/-- `WindowDecorations`. -/
inductive WindowDecorations where
  | Full | Resize | NoDecorations | Title | IntegratedButtonsResize
deriving DecidableEq

/-- `CloseConfirmation`. -/
inductive CloseConfirmation where
  | AlwaysPrompt | NeverPrompt
deriving DecidableEq

/-- `WindowConfig`. -/
structure WindowConfig where
  window_padding : Padding
  window_background_opacity : ℚ
  window_decorations : WindowDecorations
  enable_tab_bar : Bool
  hide_tab_bar_if_only_one_tab : Bool
  use_fancy_tab_bar : Bool
  tab_max_width : Nat
  show_tab_index_in_tab_bar : Bool
  inactive_pane_hsb : HSB
  window_close_confirmation : CloseConfirmation
deriving DecidableEq

/-- `CursorStyle`. -/
inductive CursorStyle where
  | SteadyBlock | BlinkingBlock | SteadyUnderline | BlinkingUnderline | SteadyBar | BlinkingBar
deriving DecidableEq

/-- `EaseFunction`. -/
inductive EaseFunction where
  | Linear | EaseIn | EaseOut | EaseInOut | Constant
deriving DecidableEq

/-- `CursorConfig`. -/
structure CursorConfig where
  default_cursor_style : CursorStyle
  cursor_blink_rate : Nat
  cursor_blink_ease_in : EaseFunction
  cursor_blink_ease_out : EaseFunction
  animation_fps : Nat
deriving DecidableEq

/-- `BackdropConfig`. -/
structure BackdropConfig where
  enabled : Bool
  images_dir : String
  images : List String
  current_index : Nat
  focus_color : String
  overlay_opacity : ℚ
  random_on_start : Bool
deriving DecidableEq

/-- `CommandPaletteConfig`. -/
structure CommandPaletteConfig where
  fg_color : String
  bg_color : String
  font_size : ℚ
deriving DecidableEq

/-- `VisualBellConfig`. -/
structure VisualBellConfig where
  fade_in_duration_ms : Nat
  fade_out_duration_ms : Nat
  fade_in_function : EaseFunction
  fade_out_function : EaseFunction
  target : String
deriving DecidableEq

/-- `ExitBehavior`. -/
inductive ExitBehavior where
  | Close | CloseOnCleanExit | Hold
deriving DecidableEq

/-- `AudibleBell`. -/
inductive AudibleBell where
  | SystemBeep | Disabled
deriving DecidableEq

/-- `GeneralConfig`. -/
structure GeneralConfig where
  automatically_reload_config : Bool
  scrollback_lines : Nat
  initial_rows : Nat
  initial_cols : Nat
  exit_behavior : ExitBehavior
  audible_bell : AudibleBell
  enable_scroll_bar : Bool
  switch_to_last_active_tab_when_closing_tab : Bool
  adjust_window_size_when_changing_font_size : Bool
deriving DecidableEq

/-- `KeyBinding`. -/
structure KeyBinding where
  enabled : Bool
  key : String
  mods : String
deriving DecidableEq

/-- `KeyBinding::new`. -/
def KeyBinding.new (key mods : String) : KeyBinding := ⟨true, key, mods⟩

/-- `MiscBindings`. -/
structure MiscBindings where
  copy_mode : KeyBinding
  command_palette : KeyBinding
  command_palette_alt : KeyBinding
  show_launcher : KeyBinding
  show_tab_launcher : KeyBinding
  show_workspace_launcher : KeyBinding
  toggle_fullscreen : KeyBinding
  show_debug_overlay : KeyBinding
  search : KeyBinding
  quick_select_url : KeyBinding
deriving DecidableEq

/-- `CopyPasteBindings`. -/
structure CopyPasteBindings where
  copy : KeyBinding
  paste : KeyBinding
  copy_simple : KeyBinding
  paste_simple : KeyBinding
deriving DecidableEq

/-- `TabBindings`. -/
structure TabBindings where
  spawn_tab : KeyBinding
  spawn_tab_wsl : KeyBinding
  close_tab : KeyBinding
  next_tab : KeyBinding
  prev_tab : KeyBinding
  move_tab_forward : KeyBinding
  move_tab_back : KeyBinding
  rename_tab : KeyBinding
  manual_update_title : KeyBinding
  reset_title : KeyBinding
  toggle_tab_bar : KeyBinding
deriving DecidableEq

/-- `WindowBindings`. -/
structure WindowBindings where
  spawn_window : KeyBinding
  shrink_window : KeyBinding
  grow_window : KeyBinding
  maximize_window : KeyBinding
deriving DecidableEq

/-- `PaneBindings`. -/
structure PaneBindings where
  split_vertical : KeyBinding
  split_horizontal : KeyBinding
  toggle_zoom : KeyBinding
  close_pane : KeyBinding
  nav_up : KeyBinding
  nav_down : KeyBinding
  nav_left : KeyBinding
  nav_right : KeyBinding
  swap_pane : KeyBinding
  scroll_up : KeyBinding
  scroll_down : KeyBinding
  page_up : KeyBinding
  page_down : KeyBinding
deriving DecidableEq

/-- `BackdropBindings`. -/
structure BackdropBindings where
  random : KeyBinding
  cycle_back : KeyBinding
  cycle_forward : KeyBinding
  select : KeyBinding
  toggle_focus : KeyBinding
deriving DecidableEq

/-- `CursorBindings`. -/
structure CursorBindings where
  home : KeyBinding
  end_key : KeyBinding
  delete_line : KeyBinding
  newline : KeyBinding
deriving DecidableEq

/-- `KeyTableBindings`. -/
structure KeyTableBindings where
  resize_font_mode : KeyBinding
  resize_pane_mode : KeyBinding
deriving DecidableEq

/-- `LeaderKeyConfig`. -/
structure LeaderKeyConfig where
  enabled : Bool
  key : String
  mods : String
  timeout_ms : Nat
deriving DecidableEq

/-- `MouseBindings`. -/
structure MouseBindings where
  ctrl_click_open_link : Bool
  right_click_command_palette : Bool
deriving DecidableEq

/-- `CustomCommands`. -/
structure CustomCommands where
  settings_tui : Bool
  rename_tab : Bool
deriving DecidableEq

/-- `KeyBindingsConfig`. -/
structure KeyBindingsConfig where
  disable_defaults : Bool
  leader : LeaderKeyConfig
  misc : MiscBindings
  copy_paste : CopyPasteBindings
  tabs : TabBindings
  windows : WindowBindings
  panes : PaneBindings
  backdrops : BackdropBindings
  cursor : CursorBindings
  key_tables : KeyTableBindings
  mouse : MouseBindings
  custom_commands : CustomCommands
deriving DecidableEq

/-- `FrontEnd`. -/
inductive FrontEnd where
  | WebGpu | OpenGL | Software
deriving DecidableEq

/-- `PowerPreference`. -/
inductive PowerPreference where
  | LowPower | HighPerformance
deriving DecidableEq

/-- `GPUConfig`. -/
structure GPUConfig where
  front_end : FrontEnd
  webgpu_power_preference : PowerPreference
  max_fps : Nat
deriving DecidableEq

/-- `AppearanceConfig`. -/
structure AppearanceConfig where
  color_scheme : Option String
  colors : ColorScheme
  fonts : FontConfig
  window : WindowConfig
  cursor : CursorConfig
  backdrop : BackdropConfig
  gpu : GPUConfig
  general : GeneralConfig
  command_palette : CommandPaletteConfig
  visual_bell : VisualBellConfig
  keybindings : KeyBindingsConfig
deriving DecidableEq

/-! ### Default values (the `Default` impls of `config.rs`)

Constructor `WindowDecorations.NoDecorations` models the Rust variant
`None` (renamed to avoid clashing with `Option.none`), and field
`CursorBindings.end_key` models the Rust field `end` (a Lean keyword). -/

/-- `TabBarColors::default`. -/
def TabBarColors.default : TabBarColors where
  background := "rgba(0, 0, 0, 0.4)"
  active_tab := ⟨"#585b70", "#cdd6f4", none⟩
  inactive_tab := ⟨"#313244", "#bac2de", none⟩
  inactive_tab_hover := ⟨"#313244", "#cdd6f4", none⟩
  new_tab := ⟨"#1f1f28", "#cdd6f4", none⟩
  new_tab_hover := ⟨"#181825", "#cdd6f4", some true⟩

/-- `ColorScheme::default`. -/
def ColorScheme.default : ColorScheme where
  foreground := "#cdd6f4"
  background := "#1f1f28"
  cursor_bg := "#f5e0dc"
  cursor_border := "#f5e0dc"
  cursor_fg := "#11111b"
  selection_bg := "#585b70"
  selection_fg := "#cdd6f4"
  ansi := ⟨"#0C0C0C", "#C50F1F", "#13A10E", "#C19C00", "#0037DA", "#881798", "#3A96DD", "#CCCCCC"⟩
  brights := ⟨"#767676", "#E74856", "#16C60C", "#F9F1A5", "#3B78FF", "#B4009E", "#61D6D6", "#F2F2F2"⟩
  tab_bar := TabBarColors.default
  visual_bell := none
  scrollbar_thumb := none
  split := none

/-- `FontConfig::default`. -/
def FontConfig.default : FontConfig where
  family := "JetBrainsMono Nerd Font"
  size := 12
  weight := none
  freetype_load_target := some FreetypeTarget.Normal
  freetype_render_target := some FreetypeTarget.Normal

/-- `Padding::default`. -/
def Padding.default : Padding := ⟨0, 0, 10, 7.5⟩

/-- `HSB::default`. -/
def HSB.default : HSB := ⟨1, 1, 1⟩

/-- `WindowConfig::default`. -/
def WindowConfig.default : WindowConfig where
  window_padding := Padding.default
  window_background_opacity := 1
  window_decorations := WindowDecorations.IntegratedButtonsResize
  enable_tab_bar := true
  hide_tab_bar_if_only_one_tab := false
  use_fancy_tab_bar := true
  tab_max_width := 25
  show_tab_index_in_tab_bar := false
  inactive_pane_hsb := HSB.default
  window_close_confirmation := CloseConfirmation.NeverPrompt

/-- `CursorConfig::default`. -/
def CursorConfig.default : CursorConfig where
  default_cursor_style := CursorStyle.BlinkingBlock
  cursor_blink_rate := 650
  cursor_blink_ease_in := EaseFunction.EaseOut
  cursor_blink_ease_out := EaseFunction.EaseOut
  animation_fps := 120

/-- `BackdropConfig::default`. -/
def BackdropConfig.default : BackdropConfig where
  enabled := false
  images_dir := ""
  images := []
  current_index := 0
  focus_color := "#1f1f28"
  overlay_opacity := 0.96
  random_on_start := false

/-- `GPUConfig::default`. -/
def GPUConfig.default : GPUConfig where
  front_end := FrontEnd.WebGpu
  webgpu_power_preference := PowerPreference.HighPerformance
  max_fps := 120

/-- `GeneralConfig::default`. -/
def GeneralConfig.default : GeneralConfig where
  automatically_reload_config := true
  scrollback_lines := 3500
  initial_rows := 24
  initial_cols := 80
  exit_behavior := ExitBehavior.CloseOnCleanExit
  audible_bell := AudibleBell.Disabled
  enable_scroll_bar := false
  switch_to_last_active_tab_when_closing_tab := true
  adjust_window_size_when_changing_font_size := true

/-- `CommandPaletteConfig::default`. -/
def CommandPaletteConfig.default : CommandPaletteConfig :=
  ⟨"#cdd6f4", "#1e1e2e", 14⟩

/-- `VisualBellConfig::default`. -/
def VisualBellConfig.default : VisualBellConfig :=
  ⟨75, 150, EaseFunction.EaseIn, EaseFunction.EaseOut, "BackgroundColor"⟩

/-- `LeaderKeyConfig::default`. -/
def LeaderKeyConfig.default : LeaderKeyConfig :=
  ⟨true, "Space", "ALT|CTRL", 1000⟩

/-- `MiscBindings::default`. -/
def MiscBindings.default : MiscBindings where
  copy_mode := KeyBinding.new "F1" "NONE"
  command_palette := KeyBinding.new "F2" "NONE"
  command_palette_alt := KeyBinding.new "p" "CTRL|SHIFT"
  show_launcher := KeyBinding.new "F3" "NONE"
  show_tab_launcher := KeyBinding.new "F4" "NONE"
  show_workspace_launcher := KeyBinding.new "F5" "NONE"
  toggle_fullscreen := KeyBinding.new "F11" "NONE"
  show_debug_overlay := KeyBinding.new "F12" "NONE"
  search := KeyBinding.new "f" "ALT"
  quick_select_url := KeyBinding.new "u" "ALT|CTRL"

/-- `CopyPasteBindings::default`. -/
def CopyPasteBindings.default : CopyPasteBindings where
  copy := KeyBinding.new "c" "CTRL|SHIFT"
  paste := KeyBinding.new "v" "CTRL|SHIFT"
  copy_simple := KeyBinding.new "c" "CTRL"
  paste_simple := KeyBinding.new "v" "CTRL"

/-- `TabBindings::default`. -/
def TabBindings.default : TabBindings where
  spawn_tab := KeyBinding.new "t" "ALT"
  spawn_tab_wsl := KeyBinding.new "t" "ALT|CTRL"
  close_tab := KeyBinding.new "w" "ALT|CTRL"
  next_tab := KeyBinding.new "]" "ALT"
  prev_tab := KeyBinding.new "[" "ALT"
  move_tab_forward := KeyBinding.new "]" "ALT|CTRL"
  move_tab_back := KeyBinding.new "[" "ALT|CTRL"
  rename_tab := KeyBinding.new "r" "ALT|CTRL"
  manual_update_title := KeyBinding.new "0" "ALT"
  reset_title := KeyBinding.new "0" "ALT|CTRL"
  toggle_tab_bar := KeyBinding.new "9" "ALT"

/-- `WindowBindings::default`. -/
def WindowBindings.default : WindowBindings where
  spawn_window := KeyBinding.new "n" "ALT"
  shrink_window := KeyBinding.new "-" "ALT"
  grow_window := KeyBinding.new "=" "ALT"
  maximize_window := KeyBinding.new "Enter" "ALT|CTRL"

/-- `PaneBindings::default`. -/
def PaneBindings.default : PaneBindings where
  split_vertical := KeyBinding.new "\\" "ALT"
  split_horizontal := KeyBinding.new "\\" "ALT|CTRL"
  toggle_zoom := KeyBinding.new "Enter" "ALT"
  close_pane := KeyBinding.new "w" "ALT"
  nav_up := KeyBinding.new "k" "ALT|CTRL"
  nav_down := KeyBinding.new "j" "ALT|CTRL"
  nav_left := KeyBinding.new "h" "ALT|CTRL"
  nav_right := KeyBinding.new "l" "ALT|CTRL"
  swap_pane := KeyBinding.new "p" "ALT|CTRL"
  scroll_up := KeyBinding.new "u" "ALT"
  scroll_down := KeyBinding.new "d" "ALT"
  page_up := KeyBinding.new "PageUp" "NONE"
  page_down := KeyBinding.new "PageDown" "NONE"

/-- `BackdropBindings::default`. -/
def BackdropBindings.default : BackdropBindings where
  random := KeyBinding.new "/" "ALT"
  cycle_back := KeyBinding.new "," "ALT"
  cycle_forward := KeyBinding.new "." "ALT"
  select := KeyBinding.new "/" "ALT|CTRL"
  toggle_focus := KeyBinding.new "b" "ALT"

/-- `CursorBindings::default`. -/
def CursorBindings.default : CursorBindings where
  home := KeyBinding.new "LeftArrow" "ALT"
  end_key := KeyBinding.new "RightArrow" "ALT"
  delete_line := KeyBinding.new "Backspace" "ALT"
  newline := KeyBinding.new "Enter" "SHIFT"

/-- `KeyTableBindings::default`. -/
def KeyTableBindings.default : KeyTableBindings where
  resize_font_mode := KeyBinding.new "f" "LEADER"
  resize_pane_mode := KeyBinding.new "p" "LEADER"

/-- `MouseBindings::default`. -/
def MouseBindings.default : MouseBindings := ⟨true, true⟩

/-- `CustomCommands::default`. -/
def CustomCommands.default : CustomCommands := ⟨true, true⟩

/-- `KeyBindingsConfig::default`. -/
def KeyBindingsConfig.default : KeyBindingsConfig where
  disable_defaults := true
  leader := LeaderKeyConfig.default
  misc := MiscBindings.default
  copy_paste := CopyPasteBindings.default
  tabs := TabBindings.default
  windows := WindowBindings.default
  panes := PaneBindings.default
  backdrops := BackdropBindings.default
  cursor := CursorBindings.default
  key_tables := KeyTableBindings.default
  mouse := MouseBindings.default
  custom_commands := CustomCommands.default

/-- `AppearanceConfig::default`. -/
def AppearanceConfig.default : AppearanceConfig where
  color_scheme := none
  colors := ColorScheme.default
  fonts := FontConfig.default
  window := WindowConfig.default
  cursor := CursorConfig.default
  backdrop := BackdropConfig.default
  gpu := GPUConfig.default
  general := GeneralConfig.default
  command_palette := CommandPaletteConfig.default
  visual_bell := VisualBellConfig.default
  keybindings := KeyBindingsConfig.default

/-! ## The Lua extraction engine (`src-tauri/src/lua/parser.rs`)

Each Rust statement `if let Some(val) = extract_xxx(content, PAT) {
field = val; }` is modelled by `applyOpt (extract ...) (fun val cfg =>
update) cfg`. -/

/-- Apply an update for a successfully extracted value; keep the prior
state when the pattern did not match. -/
def applyOpt (o : Option β) (f : β → α → α) (x : α) : α :=
  match o with
  | some v => f v x
  | none => x

/-- Models `val as u32` for the nonnegative rationals produced by the
numeric captures. -/
def ratToU32 (q : ℚ) : Nat := q.floor.toNat

/-- `parse_font_weight`. -/
def parseFontWeight (s : String) : Option FontWeight :=
  let l := lowerStr s
  if l = "thin" then some FontWeight.Thin
  else if l = "extralight" ∨ l = "extra-light" then some FontWeight.ExtraLight
  else if l = "light" then some FontWeight.Light
  else if l = "regular" ∨ l = "normal" then some FontWeight.Regular
  else if l = "medium" then some FontWeight.Medium
  else if l = "demibold" ∨ l = "demi-bold" ∨ l = "semibold" ∨ l = "semi-bold" then
    some FontWeight.DemiBold
  else if l = "bold" then some FontWeight.Bold
  else if l = "extrabold" ∨ l = "extra-bold" then some FontWeight.ExtraBold
  else if l = "black" ∨ l = "heavy" then some FontWeight.Black
  else none

/-- `parse_freetype_target`. -/
def parseFreetypeTarget (s : String) : Option FreetypeTarget :=
  let l := lowerStr s
  if l = "normal" then some FreetypeTarget.Normal
  else if l = "light" then some FreetypeTarget.Light
  else if l = "mono" then some FreetypeTarget.Mono
  else if l = "horizontallcd" ∨ l = "horizontal_lcd" then some FreetypeTarget.HorizontalLcd
  else none

/-- `parse_window_decorations`. -/
def parseWindowDecorations (s : String) : WindowDecorations :=
  let u := upperStr s
  if u = "FULL" then WindowDecorations.Full
  else if u = "RESIZE" then WindowDecorations.Resize
  else if u = "NONE" then WindowDecorations.NoDecorations
  else if u = "TITLE" then WindowDecorations.Title
  else if u = "INTEGRATED_BUTTONS|RESIZE" then WindowDecorations.IntegratedButtonsResize
  else WindowDecorations.Full

/-- `parse_close_confirmation`. -/
def parseCloseConfirmation (s : String) : CloseConfirmation :=
  if s = "AlwaysPrompt" then CloseConfirmation.AlwaysPrompt
  else if s = "NeverPrompt" then CloseConfirmation.NeverPrompt
  else CloseConfirmation.NeverPrompt

/-- `parse_cursor_style`. -/
def parseCursorStyle (s : String) : CursorStyle :=
  if s = "SteadyBlock" then CursorStyle.SteadyBlock
  else if s = "BlinkingBlock" then CursorStyle.BlinkingBlock
  else if s = "SteadyUnderline" then CursorStyle.SteadyUnderline
  else if s = "BlinkingUnderline" then CursorStyle.BlinkingUnderline
  else if s = "SteadyBar" then CursorStyle.SteadyBar
  else if s = "BlinkingBar" then CursorStyle.BlinkingBar
  else CursorStyle.BlinkingBlock

/-- `parse_ease_function`. -/
def parseEaseFunction (s : String) : EaseFunction :=
  if s = "Linear" then EaseFunction.Linear
  else if s = "EaseIn" then EaseFunction.EaseIn
  else if s = "EaseOut" then EaseFunction.EaseOut
  else if s = "EaseInOut" then EaseFunction.EaseInOut
  else if s = "Constant" then EaseFunction.Constant
  else EaseFunction.EaseOut

/-- `parse_front_end`. -/
def parseFrontEnd (s : String) : FrontEnd :=
  if s = "WebGpu" then FrontEnd.WebGpu
  else if s = "OpenGL" then FrontEnd.OpenGL
  else if s = "Software" then FrontEnd.Software
  else FrontEnd.WebGpu

/-- `parse_power_preference`. -/
def parsePowerPreference (s : String) : PowerPreference :=
  if s = "LowPower" then PowerPreference.LowPower
  else if s = "HighPerformance" then PowerPreference.HighPerformance
  else PowerPreference.HighPerformance

/-- `parse_tab_bar_colors`. -/
def parseTabBarColors (content : List Char) (tab_bar : TabBarColors) : TabBarColors :=
  let tab_bar := applyOpt (extractNestedString content ["colors", "tab_bar", "background"])
    (fun v t => { t with background := v }) tab_bar
  let tab_bar := applyOpt
    (extractNestedString content ["colors", "tab_bar", "active_tab", "bg_color"])
    (fun v t => { t with active_tab := { t.active_tab with bg_color := v } }) tab_bar
  let tab_bar := applyOpt
    (extractNestedString content ["colors", "tab_bar", "active_tab", "fg_color"])
    (fun v t => { t with active_tab := { t.active_tab with fg_color := v } }) tab_bar
  let tab_bar := applyOpt
    (extractNestedString content ["colors", "tab_bar", "inactive_tab", "bg_color"])
    (fun v t => { t with inactive_tab := { t.inactive_tab with bg_color := v } }) tab_bar
  let tab_bar := applyOpt
    (extractNestedString content ["colors", "tab_bar", "inactive_tab", "fg_color"])
    (fun v t => { t with inactive_tab := { t.inactive_tab with fg_color := v } }) tab_bar
  tab_bar

/-- `parse_colors`. -/
def parseColors (content : List Char) (colors : ColorScheme) : Except String ColorScheme :=
  let colors := applyOpt (extractStringValue content (simplePre "foreground"))
    (fun v c => { c with foreground := v }) colors
  let colors := applyOpt (extractStringValue content (simplePre "background"))
    (fun v c => { c with background := v }) colors
  let colors := applyOpt (extractStringValue content (simplePre "cursor_bg"))
    (fun v c => { c with cursor_bg := v }) colors
  let colors := applyOpt (extractStringValue content (simplePre "cursor_border"))
    (fun v c => { c with cursor_border := v }) colors
  let colors := applyOpt (extractStringValue content (simplePre "cursor_fg"))
    (fun v c => { c with cursor_fg := v }) colors
  let colors := applyOpt (extractStringValue content (simplePre "selection_bg"))
    (fun v c => { c with selection_bg := v }) colors
  let colors := applyOpt (extractStringValue content (simplePre "selection_fg"))
    (fun v c => { c with selection_fg := v }) colors
  let colors := applyOpt (extractColorArray content "ansi")
    (fun l c => if l.length = 8 then { c with ansi := (StrArr8.ofList l).getD c.ansi } else c)
    colors
  let colors := applyOpt (extractColorArray content "brights")
    (fun l c => if l.length = 8 then { c with brights := (StrArr8.ofList l).getD c.brights } else c)
    colors
  let colors := { colors with tab_bar := parseTabBarColors content colors.tab_bar }
  Except.ok colors

/-- Pattern `wezterm\.font\s*\(\s*["']([^"']+)["']`. -/
def fontCallPre : List Tok :=
  [Tok.lit "wezterm.font", Tok.spaces, Tok.lit "(", Tok.spaces]

/-- Pattern `wezterm\.font\s*\{\s*family\s*=\s*["']([^"']+)["']`. -/
def fontTablePre : List Tok :=
  [Tok.lit "wezterm.font", Tok.spaces, Tok.lit "\x7b", Tok.spaces,
   Tok.lit "family", Tok.spaces, Tok.lit "=", Tok.spaces]

/-- `parse_fonts`. -/
def parseFonts (content : List Char) (fonts : FontConfig) : Except String FontConfig :=
  let fonts := applyOpt (extractNumberValue content (simplePre "font_size"))
    (fun v f => { f with size := v }) fonts
  let fonts := applyOpt (extractStringValue content fontCallPre)
    (fun v f => { f with family := v }) fonts
  let fonts := applyOpt (extractStringValue content fontTablePre)
    (fun v f => { f with family := v }) fonts
  -- the source alternation `(?:weight|font_weight)` captures exactly what a
  -- scan for `weight\s*=\s*...` captures, since `font_weight` contains `weight`
  let fonts := applyOpt (extractStringValue content (simplePre "weight"))
    (fun v f => { f with weight := parseFontWeight v }) fonts
  let fonts := applyOpt (extractStringValue content (simplePre "freetype_load_target"))
    (fun v f => { f with freetype_load_target := parseFreetypeTarget v }) fonts
  let fonts := applyOpt (extractStringValue content (simplePre "freetype_render_target"))
    (fun v f => { f with freetype_render_target := parseFreetypeTarget v }) fonts
  Except.ok fonts

/-- `parse_window_padding`. -/
def parseWindowPadding (content : List Char) (padding : Padding) : Padding :=
  let padding := applyOpt (extractNestedNumber content ["window_padding", "left"])
    (fun v p => { p with left := v }) padding
  let padding := applyOpt (extractNestedNumber content ["window_padding", "right"])
    (fun v p => { p with right := v }) padding
  let padding := applyOpt (extractNestedNumber content ["window_padding", "top"])
    (fun v p => { p with top := v }) padding
  let padding := applyOpt (extractNestedNumber content ["window_padding", "bottom"])
    (fun v p => { p with bottom := v }) padding
  padding

/-- `parse_hsb`. -/
def parseHsb (content : List Char) (hsb : HSB) : HSB :=
  let hsb := applyOpt (extractNestedNumber content ["inactive_pane_hsb", "hue"])
    (fun v h => { h with hue := v }) hsb
  let hsb := applyOpt (extractNestedNumber content ["inactive_pane_hsb", "saturation"])
    (fun v h => { h with saturation := v }) hsb
  let hsb := applyOpt (extractNestedNumber content ["inactive_pane_hsb", "brightness"])
    (fun v h => { h with brightness := v }) hsb
  hsb

/-- `parse_window`. -/
def parseWindow (content : List Char) (window : WindowConfig) : Except String WindowConfig :=
  let window := applyOpt (extractNumberValue content (simplePre "window_background_opacity"))
    (fun v w => { w with window_background_opacity := v }) window
  let window := applyOpt (extractStringValue content (simplePre "window_decorations"))
    (fun v w => { w with window_decorations := parseWindowDecorations v }) window
  let window := applyOpt (extractBoolValue content (simplePre "enable_tab_bar"))
    (fun v w => { w with enable_tab_bar := v }) window
  let window := applyOpt (extractBoolValue content (simplePre "hide_tab_bar_if_only_one_tab"))
    (fun v w => { w with hide_tab_bar_if_only_one_tab := v }) window
  let window := applyOpt (extractBoolValue content (simplePre "use_fancy_tab_bar"))
    (fun v w => { w with use_fancy_tab_bar := v }) window
  let window := applyOpt (extractIntValue content (simplePre "tab_max_width"))
    (fun v w => { w with tab_max_width := ratToU32 v }) window
  let window := applyOpt (extractBoolValue content (simplePre "show_tab_index_in_tab_bar"))
    (fun v w => { w with show_tab_index_in_tab_bar := v }) window
  let window := { window with window_padding := parseWindowPadding content window.window_padding }
  let window := { window with inactive_pane_hsb := parseHsb content window.inactive_pane_hsb }
  let window := applyOpt (extractStringValue content (simplePre "window_close_confirmation"))
    (fun v w => { w with window_close_confirmation := parseCloseConfirmation v }) window
  Except.ok window

/-- `parse_cursor`. -/
def parseCursor (content : List Char) (cursor : CursorConfig) : Except String CursorConfig :=
  let cursor := applyOpt (extractStringValue content (simplePre "default_cursor_style"))
    (fun v c => { c with default_cursor_style := parseCursorStyle v }) cursor
  let cursor := applyOpt (extractIntValue content (simplePre "cursor_blink_rate"))
    (fun v c => { c with cursor_blink_rate := ratToU32 v }) cursor
  let cursor := applyOpt (extractStringValue content (simplePre "cursor_blink_ease_in"))
    (fun v c => { c with cursor_blink_ease_in := parseEaseFunction v }) cursor
  let cursor := applyOpt (extractStringValue content (simplePre "cursor_blink_ease_out"))
    (fun v c => { c with cursor_blink_ease_out := parseEaseFunction v }) cursor
  let cursor := applyOpt (extractIntValue content (simplePre "animation_fps"))
    (fun v c => { c with animation_fps := ratToU32 v }) cursor
  Except.ok cursor

/-- `parse_gpu`. -/
def parseGpu (content : List Char) (gpu : GPUConfig) : Except String GPUConfig :=
  let gpu := applyOpt (extractStringValue content (simplePre "front_end"))
    (fun v g => { g with front_end := parseFrontEnd v }) gpu
  let gpu := applyOpt (extractStringValue content (simplePre "webgpu_power_preference"))
    (fun v g => { g with webgpu_power_preference := parsePowerPreference v }) gpu
  let gpu := applyOpt (extractIntValue content (simplePre "max_fps"))
    (fun v g => { g with max_fps := ratToU32 v }) gpu
  Except.ok gpu

/-- `ParseResult`. -/
structure ParseResult where
  config : AppearanceConfig
  raw_content : String
  parse_errors : List String
deriving DecidableEq

/-- `parse_lua_content`: runs every section extractor, converting a failed
section into one warning and continuing with the remaining sections. -/
def parseLuaContent (content : String) : Except String ParseResult :=
  let cs := content.toList
  let config := AppearanceConfig.default
  let errors : List String := []
  let (config, errors) :=
    match parseColors cs config.colors with
    | Except.ok c => ({ config with colors := c }, errors)
    | Except.error e => (config, errors ++ ["Colors: " ++ e])
  let (config, errors) :=
    match parseFonts cs config.fonts with
    | Except.ok f => ({ config with fonts := f }, errors)
    | Except.error e => (config, errors ++ ["Fonts: " ++ e])
  let (config, errors) :=
    match parseWindow cs config.window with
    | Except.ok w => ({ config with window := w }, errors)
    | Except.error e => (config, errors ++ ["Window: " ++ e])
  let (config, errors) :=
    match parseCursor cs config.cursor with
    | Except.ok c => ({ config with cursor := c }, errors)
    | Except.error e => (config, errors ++ ["Cursor: " ++ e])
  let (config, errors) :=
    match parseGpu cs config.gpu with
    | Except.ok g => ({ config with gpu := g }, errors)
    | Except.error e => (config, errors ++ ["GPU: " ++ e])
  Except.ok ⟨config, content, errors⟩

/-- `parse_wezterm_config`: reading the file is the only fallible step;
its outcome is the `readResult` argument (`Ok` carries the file content,
`Err` the I/O error message). -/
def parseWeztermConfig (readResult : Except String String) : Except String ParseResult :=
  match readResult with
  | Except.error e => Except.error ("Failed to read config file: " ++ e)
  | Except.ok content => parseLuaContent content

/-! ## The export/import interchange layer (`src/main.rs`)

`export_config` serializes the model with `serde_json::to_string_pretty`;
`import_config` deserializes with `serde_json::from_str`.  The embedding
models the serde_json *value* layer: `exportConfig` produces the JSON
value emitted by the derived `Serialize` impls (declaration-order fields,
`skip_serializing_if = "Option::is_none"` fields omitted when absent,
unit enum variants as strings with their rename attributes), and
`importConfig` models the derived `Deserialize` impls (fields located by
key, `Option` fields defaulting to `none` when missing or `null`,
wrong-typed or missing required fields failing). -/

/-- A JSON value (numbers modelled as rationals). -/
inductive JsonVal where
  | null
  | bool (b : Bool)
  | num (q : ℚ)
  | str (s : String)
  | arr (elems : List JsonVal)
  | obj (fields : List (String × JsonVal))

/-- First value bound to a key in a JSON object. -/
def lookupJ : List (String × JsonVal) → String → Option JsonVal
  | [], _ => none
  | (k, v) :: rest, key => if k = key then some v else lookupJ rest key

/-- Required string field. -/
def getStr (m : List (String × JsonVal)) (k : String) : Option String :=
  match lookupJ m k with
  | some (JsonVal.str s) => some s
  | _ => none

/-- Required boolean field. -/
def getBool (m : List (String × JsonVal)) (k : String) : Option Bool :=
  match lookupJ m k with
  | some (JsonVal.bool b) => some b
  | _ => none

/-- Required numeric field (an `f32` in the model). -/
def getNum (m : List (String × JsonVal)) (k : String) : Option ℚ :=
  match lookupJ m k with
  | some (JsonVal.num q) => some q
  | _ => none

/-- Required unsigned-integer field (`u32`/`usize`). -/
def getNat (m : List (String × JsonVal)) (k : String) : Option Nat :=
  match lookupJ m k with
  | some (JsonVal.num q) => if q.den = 1 ∧ 0 ≤ q.num then some q.num.toNat else none
  | _ => none

/-- Required field decoded by a sub-decoder. -/
def getVia (m : List (String × JsonVal)) (k : String) (dec : JsonVal → Option α) : Option α :=
  (lookupJ m k).bind dec

/-- Optional field decoded by a sub-decoder: missing or `null` is `none`. -/
def getOptVia (m : List (String × JsonVal)) (k : String) (dec : JsonVal → Option α) :
    Option (Option α) :=
  match lookupJ m k with
  | none => some none
  | some JsonVal.null => some none
  | some j => (dec j).map some

/-- A decoded string value. -/
def decStr : JsonVal → Option String
  | JsonVal.str s => some s
  | _ => none

/-- A decoded boolean value. -/
def decBool : JsonVal → Option Bool
  | JsonVal.bool b => some b
  | _ => none

/-- An `Option` field serialized under `skip_serializing_if`: one
key/value entry when present, nothing when absent. -/
def optField (k : String) (enc : α → JsonVal) : Option α → List (String × JsonVal)
  | some v => [(k, enc v)]
  | none => []

/-- Serialize a `Nat` (`u32`/`usize`). -/
def encNat (n : Nat) : JsonVal := JsonVal.num (n : ℚ)

/-- Serialized name of a `FontWeight` variant (`rename_all = "PascalCase"`). -/
def fontWeightName : FontWeight → String
  | FontWeight.Thin => "Thin"
  | FontWeight.ExtraLight => "ExtraLight"
  | FontWeight.Light => "Light"
  | FontWeight.Regular => "Regular"
  | FontWeight.Medium => "Medium"
  | FontWeight.DemiBold => "DemiBold"
  | FontWeight.Bold => "Bold"
  | FontWeight.ExtraBold => "ExtraBold"
  | FontWeight.Black => "Black"

/-- Serialize `FontWeight` (`rename_all = "PascalCase"`). -/
def encFontWeight (w : FontWeight) : JsonVal := JsonVal.str (fontWeightName w)

/-- Deserialize `FontWeight`. -/
def decFontWeight : JsonVal → Option FontWeight
  | JsonVal.str s =>
    if s = "Thin" then some FontWeight.Thin
    else if s = "ExtraLight" then some FontWeight.ExtraLight
    else if s = "Light" then some FontWeight.Light
    else if s = "Regular" then some FontWeight.Regular
    else if s = "Medium" then some FontWeight.Medium
    else if s = "DemiBold" then some FontWeight.DemiBold
    else if s = "Bold" then some FontWeight.Bold
    else if s = "ExtraBold" then some FontWeight.ExtraBold
    else if s = "Black" then some FontWeight.Black
    else none
  | _ => none

/-- Serialized name of a `FreetypeTarget` variant (`rename_all = "PascalCase"`). -/
def freetypeTargetName : FreetypeTarget → String
  | FreetypeTarget.Normal => "Normal"
  | FreetypeTarget.Light => "Light"
  | FreetypeTarget.Mono => "Mono"
  | FreetypeTarget.HorizontalLcd => "HorizontalLcd"

/-- Serialize `FreetypeTarget` (`rename_all = "PascalCase"`). -/
def encFreetypeTarget (t : FreetypeTarget) : JsonVal := JsonVal.str (freetypeTargetName t)

/-- Deserialize `FreetypeTarget`. -/
def decFreetypeTarget : JsonVal → Option FreetypeTarget
  | JsonVal.str s =>
    if s = "Normal" then some FreetypeTarget.Normal
    else if s = "Light" then some FreetypeTarget.Light
    else if s = "Mono" then some FreetypeTarget.Mono
    else if s = "HorizontalLcd" then some FreetypeTarget.HorizontalLcd
    else none
  | _ => none

/-- Serialize `WindowDecorations` (explicit `rename` attributes). -/
def encWindowDecorations : WindowDecorations → JsonVal
  | WindowDecorations.Full => JsonVal.str "FULL"
  | WindowDecorations.Resize => JsonVal.str "RESIZE"
  | WindowDecorations.NoDecorations => JsonVal.str "NONE"
  | WindowDecorations.Title => JsonVal.str "TITLE"
  | WindowDecorations.IntegratedButtonsResize => JsonVal.str "INTEGRATED_BUTTONS|RESIZE"

/-- Deserialize `WindowDecorations`. -/
def decWindowDecorations : JsonVal → Option WindowDecorations
  | JsonVal.str s =>
    if s = "FULL" then some WindowDecorations.Full
    else if s = "RESIZE" then some WindowDecorations.Resize
    else if s = "NONE" then some WindowDecorations.NoDecorations
    else if s = "TITLE" then some WindowDecorations.Title
    else if s = "INTEGRATED_BUTTONS|RESIZE" then some WindowDecorations.IntegratedButtonsResize
    else none
  | _ => none

/-- Serialize `CloseConfirmation`. -/
def encCloseConfirmation : CloseConfirmation → JsonVal
  | CloseConfirmation.AlwaysPrompt => JsonVal.str "AlwaysPrompt"
  | CloseConfirmation.NeverPrompt => JsonVal.str "NeverPrompt"

/-- Deserialize `CloseConfirmation`. -/
def decCloseConfirmation : JsonVal → Option CloseConfirmation
  | JsonVal.str s =>
    if s = "AlwaysPrompt" then some CloseConfirmation.AlwaysPrompt
    else if s = "NeverPrompt" then some CloseConfirmation.NeverPrompt
    else none
  | _ => none

/-- Serialize `CursorStyle`. -/
def encCursorStyle : CursorStyle → JsonVal
  | CursorStyle.SteadyBlock => JsonVal.str "SteadyBlock"
  | CursorStyle.BlinkingBlock => JsonVal.str "BlinkingBlock"
  | CursorStyle.SteadyUnderline => JsonVal.str "SteadyUnderline"
  | CursorStyle.BlinkingUnderline => JsonVal.str "BlinkingUnderline"
  | CursorStyle.SteadyBar => JsonVal.str "SteadyBar"
  | CursorStyle.BlinkingBar => JsonVal.str "BlinkingBar"

/-- Deserialize `CursorStyle`. -/
def decCursorStyle : JsonVal → Option CursorStyle
  | JsonVal.str s =>
    if s = "SteadyBlock" then some CursorStyle.SteadyBlock
    else if s = "BlinkingBlock" then some CursorStyle.BlinkingBlock
    else if s = "SteadyUnderline" then some CursorStyle.SteadyUnderline
    else if s = "BlinkingUnderline" then some CursorStyle.BlinkingUnderline
    else if s = "SteadyBar" then some CursorStyle.SteadyBar
    else if s = "BlinkingBar" then some CursorStyle.BlinkingBar
    else none
  | _ => none

/-- Serialize `EaseFunction`. -/
def encEaseFunction : EaseFunction → JsonVal
  | EaseFunction.Linear => JsonVal.str "Linear"
  | EaseFunction.EaseIn => JsonVal.str "EaseIn"
  | EaseFunction.EaseOut => JsonVal.str "EaseOut"
  | EaseFunction.EaseInOut => JsonVal.str "EaseInOut"
  | EaseFunction.Constant => JsonVal.str "Constant"

/-- Deserialize `EaseFunction`. -/
def decEaseFunction : JsonVal → Option EaseFunction
  | JsonVal.str s =>
    if s = "Linear" then some EaseFunction.Linear
    else if s = "EaseIn" then some EaseFunction.EaseIn
    else if s = "EaseOut" then some EaseFunction.EaseOut
    else if s = "EaseInOut" then some EaseFunction.EaseInOut
    else if s = "Constant" then some EaseFunction.Constant
    else none
  | _ => none

/-- Serialize `ExitBehavior`. -/
def encExitBehavior : ExitBehavior → JsonVal
  | ExitBehavior.Close => JsonVal.str "Close"
  | ExitBehavior.CloseOnCleanExit => JsonVal.str "CloseOnCleanExit"
  | ExitBehavior.Hold => JsonVal.str "Hold"

/-- Deserialize `ExitBehavior`. -/
def decExitBehavior : JsonVal → Option ExitBehavior
  | JsonVal.str s =>
    if s = "Close" then some ExitBehavior.Close
    else if s = "CloseOnCleanExit" then some ExitBehavior.CloseOnCleanExit
    else if s = "Hold" then some ExitBehavior.Hold
    else none
  | _ => none

/-- Serialize `AudibleBell`. -/
def encAudibleBell : AudibleBell → JsonVal
  | AudibleBell.SystemBeep => JsonVal.str "SystemBeep"
  | AudibleBell.Disabled => JsonVal.str "Disabled"

/-- Deserialize `AudibleBell`. -/
def decAudibleBell : JsonVal → Option AudibleBell
  | JsonVal.str s =>
    if s = "SystemBeep" then some AudibleBell.SystemBeep
    else if s = "Disabled" then some AudibleBell.Disabled
    else none
  | _ => none

/-- Serialize `FrontEnd`. -/
def encFrontEnd : FrontEnd → JsonVal
  | FrontEnd.WebGpu => JsonVal.str "WebGpu"
  | FrontEnd.OpenGL => JsonVal.str "OpenGL"
  | FrontEnd.Software => JsonVal.str "Software"

/-- Deserialize `FrontEnd`. -/
def decFrontEnd : JsonVal → Option FrontEnd
  | JsonVal.str s =>
    if s = "WebGpu" then some FrontEnd.WebGpu
    else if s = "OpenGL" then some FrontEnd.OpenGL
    else if s = "Software" then some FrontEnd.Software
    else none
  | _ => none

/-- Serialize `PowerPreference`. -/
def encPowerPreference : PowerPreference → JsonVal
  | PowerPreference.LowPower => JsonVal.str "LowPower"
  | PowerPreference.HighPerformance => JsonVal.str "HighPerformance"

/-- Deserialize `PowerPreference`. -/
def decPowerPreference : JsonVal → Option PowerPreference
  | JsonVal.str s =>
    if s = "LowPower" then some PowerPreference.LowPower
    else if s = "HighPerformance" then some PowerPreference.HighPerformance
    else none
  | _ => none

/-- Serialize `TabColors` (`italic` skipped when absent). -/
def encTabColors (t : TabColors) : JsonVal :=
  JsonVal.obj ([("bg_color", JsonVal.str t.bg_color), ("fg_color", JsonVal.str t.fg_color)]
    ++ optField "italic" JsonVal.bool t.italic)

/-- Deserialize `TabColors`. -/
def decTabColors : JsonVal → Option TabColors
  | JsonVal.obj m => do
    let bg ← getStr m "bg_color"
    let fg ← getStr m "fg_color"
    let it ← getOptVia m "italic" decBool
    pure ⟨bg, fg, it⟩
  | _ => none

/-- Serialize `TabBarColors`. -/
def encTabBarColors (t : TabBarColors) : JsonVal :=
  JsonVal.obj
    [("background", JsonVal.str t.background),
     ("active_tab", encTabColors t.active_tab),
     ("inactive_tab", encTabColors t.inactive_tab),
     ("inactive_tab_hover", encTabColors t.inactive_tab_hover),
     ("new_tab", encTabColors t.new_tab),
     ("new_tab_hover", encTabColors t.new_tab_hover)]

/-- Deserialize `TabBarColors`. -/
def decTabBarColors : JsonVal → Option TabBarColors
  | JsonVal.obj m => do
    let bg ← getStr m "background"
    let a ← getVia m "active_tab" decTabColors
    let i ← getVia m "inactive_tab" decTabColors
    let ih ← getVia m "inactive_tab_hover" decTabColors
    let n ← getVia m "new_tab" decTabColors
    let nh ← getVia m "new_tab_hover" decTabColors
    pure ⟨bg, a, i, ih, n, nh⟩
  | _ => none

/-- Serialize `[String; 8]`. -/
def encStrArr8 (a : StrArr8) : JsonVal := JsonVal.arr (a.toList.map JsonVal.str)

/-- Decode a list of JSON strings. -/
def decStrs : List JsonVal → Option (List String)
  | [] => some []
  | j :: rest => do
    let s ← decStr j
    let r ← decStrs rest
    pure (s :: r)

/-- Deserialize `[String; 8]` (exactly eight strings). -/
def decStrArr8 : JsonVal → Option StrArr8
  | JsonVal.arr js => (decStrs js).bind StrArr8.ofList
  | _ => none

/-- Serialize `ColorScheme`. -/
def encColorScheme (c : ColorScheme) : JsonVal :=
  JsonVal.obj
    ([("foreground", JsonVal.str c.foreground),
      ("background", JsonVal.str c.background),
      ("cursor_bg", JsonVal.str c.cursor_bg),
      ("cursor_border", JsonVal.str c.cursor_border),
      ("cursor_fg", JsonVal.str c.cursor_fg),
      ("selection_bg", JsonVal.str c.selection_bg),
      ("selection_fg", JsonVal.str c.selection_fg),
      ("ansi", encStrArr8 c.ansi),
      ("brights", encStrArr8 c.brights),
      ("tab_bar", encTabBarColors c.tab_bar)]
     ++ optField "visual_bell" JsonVal.str c.visual_bell
     ++ optField "scrollbar_thumb" JsonVal.str c.scrollbar_thumb
     ++ optField "split" JsonVal.str c.split)

/-- Deserialize `ColorScheme`. -/
def decColorScheme : JsonVal → Option ColorScheme
  | JsonVal.obj m => do
    let fg ← getStr m "foreground"
    let bg ← getStr m "background"
    let cbg ← getStr m "cursor_bg"
    let cbd ← getStr m "cursor_border"
    let cfg ← getStr m "cursor_fg"
    let sbg ← getStr m "selection_bg"
    let sfg ← getStr m "selection_fg"
    let ansi ← getVia m "ansi" decStrArr8
    let brights ← getVia m "brights" decStrArr8
    let tb ← getVia m "tab_bar" decTabBarColors
    let vb ← getOptVia m "visual_bell" decStr
    let st ← getOptVia m "scrollbar_thumb" decStr
    let sp ← getOptVia m "split" decStr
    pure ⟨fg, bg, cbg, cbd, cfg, sbg, sfg, ansi, brights, tb, vb, st, sp⟩
  | _ => none

/-- Serialize `FontConfig` (three skipped optionals). -/
def encFontConfig (f : FontConfig) : JsonVal :=
  JsonVal.obj
    ([("family", JsonVal.str f.family), ("size", JsonVal.num f.size)]
     ++ optField "weight" encFontWeight f.weight
     ++ optField "freetype_load_target" encFreetypeTarget f.freetype_load_target
     ++ optField "freetype_render_target" encFreetypeTarget f.freetype_render_target)

/-- Deserialize `FontConfig`. -/
def decFontConfig : JsonVal → Option FontConfig
  | JsonVal.obj m => do
    let fam ← getStr m "family"
    let sz ← getNum m "size"
    let w ← getOptVia m "weight" decFontWeight
    let lt ← getOptVia m "freetype_load_target" decFreetypeTarget
    let rt ← getOptVia m "freetype_render_target" decFreetypeTarget
    pure ⟨fam, sz, w, lt, rt⟩
  | _ => none

/-- Serialize `Padding`. -/
def encPadding (p : Padding) : JsonVal :=
  JsonVal.obj
    [("left", JsonVal.num p.left), ("right", JsonVal.num p.right),
     ("top", JsonVal.num p.top), ("bottom", JsonVal.num p.bottom)]

/-- Deserialize `Padding`. -/
def decPadding : JsonVal → Option Padding
  | JsonVal.obj m => do
    let l ← getNum m "left"
    let r ← getNum m "right"
    let t ← getNum m "top"
    let b ← getNum m "bottom"
    pure ⟨l, r, t, b⟩
  | _ => none

/-- Serialize `HSB`. -/
def encHSB (h : HSB) : JsonVal :=
  JsonVal.obj
    [("hue", JsonVal.num h.hue), ("saturation", JsonVal.num h.saturation),
     ("brightness", JsonVal.num h.brightness)]

/-- Deserialize `HSB`. -/
def decHSB : JsonVal → Option HSB
  | JsonVal.obj m => do
    let h ← getNum m "hue"
    let s ← getNum m "saturation"
    let b ← getNum m "brightness"
    pure ⟨h, s, b⟩
  | _ => none

/-- Serialize `WindowConfig`. -/
def encWindowConfig (w : WindowConfig) : JsonVal :=
  JsonVal.obj
    [("window_padding", encPadding w.window_padding),
     ("window_background_opacity", JsonVal.num w.window_background_opacity),
     ("window_decorations", encWindowDecorations w.window_decorations),
     ("enable_tab_bar", JsonVal.bool w.enable_tab_bar),
     ("hide_tab_bar_if_only_one_tab", JsonVal.bool w.hide_tab_bar_if_only_one_tab),
     ("use_fancy_tab_bar", JsonVal.bool w.use_fancy_tab_bar),
     ("tab_max_width", encNat w.tab_max_width),
     ("show_tab_index_in_tab_bar", JsonVal.bool w.show_tab_index_in_tab_bar),
     ("inactive_pane_hsb", encHSB w.inactive_pane_hsb),
     ("window_close_confirmation", encCloseConfirmation w.window_close_confirmation)]

/-- Deserialize `WindowConfig`. -/
def decWindowConfig : JsonVal → Option WindowConfig
  | JsonVal.obj m => do
    let wp ← getVia m "window_padding" decPadding
    let op ← getNum m "window_background_opacity"
    let wd ← getVia m "window_decorations" decWindowDecorations
    let et ← getBool m "enable_tab_bar"
    let ht ← getBool m "hide_tab_bar_if_only_one_tab"
    let uf ← getBool m "use_fancy_tab_bar"
    let tw ← getNat m "tab_max_width"
    let st ← getBool m "show_tab_index_in_tab_bar"
    let hsb ← getVia m "inactive_pane_hsb" decHSB
    let cc ← getVia m "window_close_confirmation" decCloseConfirmation
    pure ⟨wp, op, wd, et, ht, uf, tw, st, hsb, cc⟩
  | _ => none

/-- Serialize `CursorConfig`. -/
def encCursorConfig (c : CursorConfig) : JsonVal :=
  JsonVal.obj
    [("default_cursor_style", encCursorStyle c.default_cursor_style),
     ("cursor_blink_rate", encNat c.cursor_blink_rate),
     ("cursor_blink_ease_in", encEaseFunction c.cursor_blink_ease_in),
     ("cursor_blink_ease_out", encEaseFunction c.cursor_blink_ease_out),
     ("animation_fps", encNat c.animation_fps)]

/-- Deserialize `CursorConfig`. -/
def decCursorConfig : JsonVal → Option CursorConfig
  | JsonVal.obj m => do
    let cs ← getVia m "default_cursor_style" decCursorStyle
    let br ← getNat m "cursor_blink_rate"
    let ei ← getVia m "cursor_blink_ease_in" decEaseFunction
    let eo ← getVia m "cursor_blink_ease_out" decEaseFunction
    let fps ← getNat m "animation_fps"
    pure ⟨cs, br, ei, eo, fps⟩
  | _ => none

/-- Serialize `BackdropConfig`. -/
def encBackdropConfig (b : BackdropConfig) : JsonVal :=
  JsonVal.obj
    [("enabled", JsonVal.bool b.enabled),
     ("images_dir", JsonVal.str b.images_dir),
     ("images", JsonVal.arr (b.images.map JsonVal.str)),
     ("current_index", encNat b.current_index),
     ("focus_color", JsonVal.str b.focus_color),
     ("overlay_opacity", JsonVal.num b.overlay_opacity),
     ("random_on_start", JsonVal.bool b.random_on_start)]

/-- Deserialize `Vec<String>`. -/
def decStrList : JsonVal → Option (List String)
  | JsonVal.arr js => decStrs js
  | _ => none

/-- Deserialize `BackdropConfig`. -/
def decBackdropConfig : JsonVal → Option BackdropConfig
  | JsonVal.obj m => do
    let en ← getBool m "enabled"
    let dir ← getStr m "images_dir"
    let ims ← getVia m "images" decStrList
    let ci ← getNat m "current_index"
    let fc ← getStr m "focus_color"
    let oo ← getNum m "overlay_opacity"
    let ro ← getBool m "random_on_start"
    pure ⟨en, dir, ims, ci, fc, oo, ro⟩
  | _ => none

/-- Serialize `CommandPaletteConfig`. -/
def encCommandPaletteConfig (c : CommandPaletteConfig) : JsonVal :=
  JsonVal.obj
    [("fg_color", JsonVal.str c.fg_color),
     ("bg_color", JsonVal.str c.bg_color),
     ("font_size", JsonVal.num c.font_size)]

/-- Deserialize `CommandPaletteConfig`. -/
def decCommandPaletteConfig : JsonVal → Option CommandPaletteConfig
  | JsonVal.obj m => do
    let fg ← getStr m "fg_color"
    let bg ← getStr m "bg_color"
    let fs ← getNum m "font_size"
    pure ⟨fg, bg, fs⟩
  | _ => none

/-- Serialize `VisualBellConfig`. -/
def encVisualBellConfig (v : VisualBellConfig) : JsonVal :=
  JsonVal.obj
    [("fade_in_duration_ms", encNat v.fade_in_duration_ms),
     ("fade_out_duration_ms", encNat v.fade_out_duration_ms),
     ("fade_in_function", encEaseFunction v.fade_in_function),
     ("fade_out_function", encEaseFunction v.fade_out_function),
     ("target", JsonVal.str v.target)]

/-- Deserialize `VisualBellConfig`. -/
def decVisualBellConfig : JsonVal → Option VisualBellConfig
  | JsonVal.obj m => do
    let fi ← getNat m "fade_in_duration_ms"
    let fo ← getNat m "fade_out_duration_ms"
    let fif ← getVia m "fade_in_function" decEaseFunction
    let fof ← getVia m "fade_out_function" decEaseFunction
    let t ← getStr m "target"
    pure ⟨fi, fo, fif, fof, t⟩
  | _ => none

/-- Serialize `GeneralConfig`. -/
def encGeneralConfig (g : GeneralConfig) : JsonVal :=
  JsonVal.obj
    [("automatically_reload_config", JsonVal.bool g.automatically_reload_config),
     ("scrollback_lines", encNat g.scrollback_lines),
     ("initial_rows", encNat g.initial_rows),
     ("initial_cols", encNat g.initial_cols),
     ("exit_behavior", encExitBehavior g.exit_behavior),
     ("audible_bell", encAudibleBell g.audible_bell),
     ("enable_scroll_bar", JsonVal.bool g.enable_scroll_bar),
     ("switch_to_last_active_tab_when_closing_tab",
       JsonVal.bool g.switch_to_last_active_tab_when_closing_tab),
     ("adjust_window_size_when_changing_font_size",
       JsonVal.bool g.adjust_window_size_when_changing_font_size)]

/-- Deserialize `GeneralConfig`. -/
def decGeneralConfig : JsonVal → Option GeneralConfig
  | JsonVal.obj m => do
    let ar ← getBool m "automatically_reload_config"
    let sl ← getNat m "scrollback_lines"
    let ir ← getNat m "initial_rows"
    let ic ← getNat m "initial_cols"
    let eb ← getVia m "exit_behavior" decExitBehavior
    let ab ← getVia m "audible_bell" decAudibleBell
    let sb ← getBool m "enable_scroll_bar"
    let sw ← getBool m "switch_to_last_active_tab_when_closing_tab"
    let aw ← getBool m "adjust_window_size_when_changing_font_size"
    pure ⟨ar, sl, ir, ic, eb, ab, sb, sw, aw⟩
  | _ => none

/-- Serialize `GPUConfig`. -/
def encGPUConfig (g : GPUConfig) : JsonVal :=
  JsonVal.obj
    [("front_end", encFrontEnd g.front_end),
     ("webgpu_power_preference", encPowerPreference g.webgpu_power_preference),
     ("max_fps", encNat g.max_fps)]

/-- Deserialize `GPUConfig`. -/
def decGPUConfig : JsonVal → Option GPUConfig
  | JsonVal.obj m => do
    let fe ← getVia m "front_end" decFrontEnd
    let pp ← getVia m "webgpu_power_preference" decPowerPreference
    let mf ← getNat m "max_fps"
    pure ⟨fe, pp, mf⟩
  | _ => none

/-- Serialize `KeyBinding`. -/
def encKeyBinding (k : KeyBinding) : JsonVal :=
  JsonVal.obj
    [("enabled", JsonVal.bool k.enabled),
     ("key", JsonVal.str k.key),
     ("mods", JsonVal.str k.mods)]

/-- Deserialize `KeyBinding`. -/
def decKeyBinding : JsonVal → Option KeyBinding
  | JsonVal.obj m => do
    let e ← getBool m "enabled"
    let k ← getStr m "key"
    let md ← getStr m "mods"
    pure ⟨e, k, md⟩
  | _ => none

/-- Serialize `LeaderKeyConfig`. -/
def encLeaderKeyConfig (l : LeaderKeyConfig) : JsonVal :=
  JsonVal.obj
    [("enabled", JsonVal.bool l.enabled),
     ("key", JsonVal.str l.key),
     ("mods", JsonVal.str l.mods),
     ("timeout_ms", encNat l.timeout_ms)]

/-- Deserialize `LeaderKeyConfig`. -/
def decLeaderKeyConfig : JsonVal → Option LeaderKeyConfig
  | JsonVal.obj m => do
    let e ← getBool m "enabled"
    let k ← getStr m "key"
    let md ← getStr m "mods"
    let t ← getNat m "timeout_ms"
    pure ⟨e, k, md, t⟩
  | _ => none

/-- Serialize `MiscBindings`. -/
def encMiscBindings (b : MiscBindings) : JsonVal :=
  JsonVal.obj
    [("copy_mode", encKeyBinding b.copy_mode),
     ("command_palette", encKeyBinding b.command_palette),
     ("command_palette_alt", encKeyBinding b.command_palette_alt),
     ("show_launcher", encKeyBinding b.show_launcher),
     ("show_tab_launcher", encKeyBinding b.show_tab_launcher),
     ("show_workspace_launcher", encKeyBinding b.show_workspace_launcher),
     ("toggle_fullscreen", encKeyBinding b.toggle_fullscreen),
     ("show_debug_overlay", encKeyBinding b.show_debug_overlay),
     ("search", encKeyBinding b.search),
     ("quick_select_url", encKeyBinding b.quick_select_url)]

/-- Deserialize `MiscBindings`. -/
def decMiscBindings : JsonVal → Option MiscBindings
  | JsonVal.obj m => do
    let cm ← getVia m "copy_mode" decKeyBinding
    let cp ← getVia m "command_palette" decKeyBinding
    let cpa ← getVia m "command_palette_alt" decKeyBinding
    let sl ← getVia m "show_launcher" decKeyBinding
    let stl ← getVia m "show_tab_launcher" decKeyBinding
    let swl ← getVia m "show_workspace_launcher" decKeyBinding
    let tf ← getVia m "toggle_fullscreen" decKeyBinding
    let sdo ← getVia m "show_debug_overlay" decKeyBinding
    let se ← getVia m "search" decKeyBinding
    let qu ← getVia m "quick_select_url" decKeyBinding
    pure ⟨cm, cp, cpa, sl, stl, swl, tf, sdo, se, qu⟩
  | _ => none

/-- Serialize `CopyPasteBindings`. -/
def encCopyPasteBindings (b : CopyPasteBindings) : JsonVal :=
  JsonVal.obj
    [("copy", encKeyBinding b.copy),
     ("paste", encKeyBinding b.paste),
     ("copy_simple", encKeyBinding b.copy_simple),
     ("paste_simple", encKeyBinding b.paste_simple)]

/-- Deserialize `CopyPasteBindings`. -/
def decCopyPasteBindings : JsonVal → Option CopyPasteBindings
  | JsonVal.obj m => do
    let c ← getVia m "copy" decKeyBinding
    let p ← getVia m "paste" decKeyBinding
    let cs ← getVia m "copy_simple" decKeyBinding
    let ps ← getVia m "paste_simple" decKeyBinding
    pure ⟨c, p, cs, ps⟩
  | _ => none

/-- Serialize `TabBindings`. -/
def encTabBindings (b : TabBindings) : JsonVal :=
  JsonVal.obj
    [("spawn_tab", encKeyBinding b.spawn_tab),
     ("spawn_tab_wsl", encKeyBinding b.spawn_tab_wsl),
     ("close_tab", encKeyBinding b.close_tab),
     ("next_tab", encKeyBinding b.next_tab),
     ("prev_tab", encKeyBinding b.prev_tab),
     ("move_tab_forward", encKeyBinding b.move_tab_forward),
     ("move_tab_back", encKeyBinding b.move_tab_back),
     ("rename_tab", encKeyBinding b.rename_tab),
     ("manual_update_title", encKeyBinding b.manual_update_title),
     ("reset_title", encKeyBinding b.reset_title),
     ("toggle_tab_bar", encKeyBinding b.toggle_tab_bar)]

/-- Deserialize `TabBindings`. -/
def decTabBindings : JsonVal → Option TabBindings
  | JsonVal.obj m => do
    let st ← getVia m "spawn_tab" decKeyBinding
    let sw ← getVia m "spawn_tab_wsl" decKeyBinding
    let ct ← getVia m "close_tab" decKeyBinding
    let nt ← getVia m "next_tab" decKeyBinding
    let pt ← getVia m "prev_tab" decKeyBinding
    let mf ← getVia m "move_tab_forward" decKeyBinding
    let mb ← getVia m "move_tab_back" decKeyBinding
    let rt ← getVia m "rename_tab" decKeyBinding
    let mu ← getVia m "manual_update_title" decKeyBinding
    let rs ← getVia m "reset_title" decKeyBinding
    let tt ← getVia m "toggle_tab_bar" decKeyBinding
    pure ⟨st, sw, ct, nt, pt, mf, mb, rt, mu, rs, tt⟩
  | _ => none

/-- Serialize `WindowBindings`. -/
def encWindowBindings (b : WindowBindings) : JsonVal :=
  JsonVal.obj
    [("spawn_window", encKeyBinding b.spawn_window),
     ("shrink_window", encKeyBinding b.shrink_window),
     ("grow_window", encKeyBinding b.grow_window),
     ("maximize_window", encKeyBinding b.maximize_window)]

/-- Deserialize `WindowBindings`. -/
def decWindowBindings : JsonVal → Option WindowBindings
  | JsonVal.obj m => do
    let sw ← getVia m "spawn_window" decKeyBinding
    let sh ← getVia m "shrink_window" decKeyBinding
    let gw ← getVia m "grow_window" decKeyBinding
    let mw ← getVia m "maximize_window" decKeyBinding
    pure ⟨sw, sh, gw, mw⟩
  | _ => none

/-- Serialize `PaneBindings`. -/
def encPaneBindings (b : PaneBindings) : JsonVal :=
  JsonVal.obj
    [("split_vertical", encKeyBinding b.split_vertical),
     ("split_horizontal", encKeyBinding b.split_horizontal),
     ("toggle_zoom", encKeyBinding b.toggle_zoom),
     ("close_pane", encKeyBinding b.close_pane),
     ("nav_up", encKeyBinding b.nav_up),
     ("nav_down", encKeyBinding b.nav_down),
     ("nav_left", encKeyBinding b.nav_left),
     ("nav_right", encKeyBinding b.nav_right),
     ("swap_pane", encKeyBinding b.swap_pane),
     ("scroll_up", encKeyBinding b.scroll_up),
     ("scroll_down", encKeyBinding b.scroll_down),
     ("page_up", encKeyBinding b.page_up),
     ("page_down", encKeyBinding b.page_down)]

/-- Deserialize `PaneBindings`. -/
def decPaneBindings : JsonVal → Option PaneBindings
  | JsonVal.obj m => do
    let sv ← getVia m "split_vertical" decKeyBinding
    let sh ← getVia m "split_horizontal" decKeyBinding
    let tz ← getVia m "toggle_zoom" decKeyBinding
    let cp ← getVia m "close_pane" decKeyBinding
    let nu ← getVia m "nav_up" decKeyBinding
    let nd ← getVia m "nav_down" decKeyBinding
    let nl ← getVia m "nav_left" decKeyBinding
    let nr ← getVia m "nav_right" decKeyBinding
    let sp ← getVia m "swap_pane" decKeyBinding
    let su ← getVia m "scroll_up" decKeyBinding
    let sd ← getVia m "scroll_down" decKeyBinding
    let pu ← getVia m "page_up" decKeyBinding
    let pd ← getVia m "page_down" decKeyBinding
    pure ⟨sv, sh, tz, cp, nu, nd, nl, nr, sp, su, sd, pu, pd⟩
  | _ => none

/-- Serialize `BackdropBindings`. -/
def encBackdropBindings (b : BackdropBindings) : JsonVal :=
  JsonVal.obj
    [("random", encKeyBinding b.random),
     ("cycle_back", encKeyBinding b.cycle_back),
     ("cycle_forward", encKeyBinding b.cycle_forward),
     ("select", encKeyBinding b.select),
     ("toggle_focus", encKeyBinding b.toggle_focus)]

/-- Deserialize `BackdropBindings`. -/
def decBackdropBindings : JsonVal → Option BackdropBindings
  | JsonVal.obj m => do
    let r ← getVia m "random" decKeyBinding
    let cb ← getVia m "cycle_back" decKeyBinding
    let cf ← getVia m "cycle_forward" decKeyBinding
    let se ← getVia m "select" decKeyBinding
    let tf ← getVia m "toggle_focus" decKeyBinding
    pure ⟨r, cb, cf, se, tf⟩
  | _ => none

/-- Serialize `CursorBindings` (field `end` of the source is `end_key`). -/
def encCursorBindings (b : CursorBindings) : JsonVal :=
  JsonVal.obj
    [("home", encKeyBinding b.home),
     ("end", encKeyBinding b.end_key),
     ("delete_line", encKeyBinding b.delete_line),
     ("newline", encKeyBinding b.newline)]

/-- Deserialize `CursorBindings`. -/
def decCursorBindings : JsonVal → Option CursorBindings
  | JsonVal.obj m => do
    let h ← getVia m "home" decKeyBinding
    let e ← getVia m "end" decKeyBinding
    let dl ← getVia m "delete_line" decKeyBinding
    let nl ← getVia m "newline" decKeyBinding
    pure ⟨h, e, dl, nl⟩
  | _ => none

/-- Serialize `KeyTableBindings`. -/
def encKeyTableBindings (b : KeyTableBindings) : JsonVal :=
  JsonVal.obj
    [("resize_font_mode", encKeyBinding b.resize_font_mode),
     ("resize_pane_mode", encKeyBinding b.resize_pane_mode)]

/-- Deserialize `KeyTableBindings`. -/
def decKeyTableBindings : JsonVal → Option KeyTableBindings
  | JsonVal.obj m => do
    let rf ← getVia m "resize_font_mode" decKeyBinding
    let rp ← getVia m "resize_pane_mode" decKeyBinding
    pure ⟨rf, rp⟩
  | _ => none

/-- Serialize `MouseBindings`. -/
def encMouseBindings (b : MouseBindings) : JsonVal :=
  JsonVal.obj
    [("ctrl_click_open_link", JsonVal.bool b.ctrl_click_open_link),
     ("right_click_command_palette", JsonVal.bool b.right_click_command_palette)]

/-- Deserialize `MouseBindings`. -/
def decMouseBindings : JsonVal → Option MouseBindings
  | JsonVal.obj m => do
    let cc ← getBool m "ctrl_click_open_link"
    let rc ← getBool m "right_click_command_palette"
    pure ⟨cc, rc⟩
  | _ => none

/-- Serialize `CustomCommands`. -/
def encCustomCommands (b : CustomCommands) : JsonVal :=
  JsonVal.obj
    [("settings_tui", JsonVal.bool b.settings_tui),
     ("rename_tab", JsonVal.bool b.rename_tab)]

/-- Deserialize `CustomCommands`. -/
def decCustomCommands : JsonVal → Option CustomCommands
  | JsonVal.obj m => do
    let st ← getBool m "settings_tui"
    let rt ← getBool m "rename_tab"
    pure ⟨st, rt⟩
  | _ => none

/-- Serialize `KeyBindingsConfig`. -/
def encKeyBindingsConfig (b : KeyBindingsConfig) : JsonVal :=
  JsonVal.obj
    [("disable_defaults", JsonVal.bool b.disable_defaults),
     ("leader", encLeaderKeyConfig b.leader),
     ("misc", encMiscBindings b.misc),
     ("copy_paste", encCopyPasteBindings b.copy_paste),
     ("tabs", encTabBindings b.tabs),
     ("windows", encWindowBindings b.windows),
     ("panes", encPaneBindings b.panes),
     ("backdrops", encBackdropBindings b.backdrops),
     ("cursor", encCursorBindings b.cursor),
     ("key_tables", encKeyTableBindings b.key_tables),
     ("mouse", encMouseBindings b.mouse),
     ("custom_commands", encCustomCommands b.custom_commands)]

/-- Deserialize `KeyBindingsConfig`. -/
def decKeyBindingsConfig : JsonVal → Option KeyBindingsConfig
  | JsonVal.obj m => do
    let dd ← getBool m "disable_defaults"
    let ld ← getVia m "leader" decLeaderKeyConfig
    let mi ← getVia m "misc" decMiscBindings
    let cp ← getVia m "copy_paste" decCopyPasteBindings
    let tb ← getVia m "tabs" decTabBindings
    let wd ← getVia m "windows" decWindowBindings
    let pn ← getVia m "panes" decPaneBindings
    let bd ← getVia m "backdrops" decBackdropBindings
    let cu ← getVia m "cursor" decCursorBindings
    let kt ← getVia m "key_tables" decKeyTableBindings
    let mo ← getVia m "mouse" decMouseBindings
    let cc ← getVia m "custom_commands" decCustomCommands
    pure ⟨dd, ld, mi, cp, tb, wd, pn, bd, cu, kt, mo, cc⟩
  | _ => none

/-- `export_config` without the I/O wrapper: the JSON value produced by
`serde_json::to_string_pretty(&config)`. -/
def exportConfig (c : AppearanceConfig) : JsonVal :=
  JsonVal.obj
    (optField "color_scheme" JsonVal.str c.color_scheme
     ++ [("colors", encColorScheme c.colors),
         ("fonts", encFontConfig c.fonts),
         ("window", encWindowConfig c.window),
         ("cursor", encCursorConfig c.cursor),
         ("backdrop", encBackdropConfig c.backdrop),
         ("gpu", encGPUConfig c.gpu),
         ("general", encGeneralConfig c.general),
         ("command_palette", encCommandPaletteConfig c.command_palette),
         ("visual_bell", encVisualBellConfig c.visual_bell),
         ("keybindings", encKeyBindingsConfig c.keybindings)])

/-- `import_config` without the I/O wrapper: the model recovered by
`serde_json::from_str::<AppearanceConfig>`. -/
def importConfig : JsonVal → Option AppearanceConfig
  | JsonVal.obj m => do
    let cs ← getOptVia m "color_scheme" decStr
    let co ← getVia m "colors" decColorScheme
    let fo ← getVia m "fonts" decFontConfig
    let wi ← getVia m "window" decWindowConfig
    let cu ← getVia m "cursor" decCursorConfig
    let ba ← getVia m "backdrop" decBackdropConfig
    let gp ← getVia m "gpu" decGPUConfig
    let ge ← getVia m "general" decGeneralConfig
    let cp ← getVia m "command_palette" decCommandPaletteConfig
    let vb ← getVia m "visual_bell" decVisualBellConfig
    let kb ← getVia m "keybindings" decKeyBindingsConfig
    pure ⟨cs, co, fo, wi, cu, ba, gp, ge, cp, vb, kb⟩
  | _ => none

/-! ## The interactive editor state machine (`src/app.rs`)

Key events carry the `KeyCode` and whether CTRL is held.  The outcome of
the fallible `config::save_config` call is an explicit argument `sv`
(`Ok` or the error message), since the filesystem is outside the model. -/

/-- `Panel`. -/
inductive Panel where
  | Themes | Colors | Fonts | Window | Cursor | Gpu | Keybindings
deriving DecidableEq

/-- `Panel::all`. -/
def Panel.all : List Panel :=
  [Panel.Themes, Panel.Colors, Panel.Fonts, Panel.Window, Panel.Cursor,
   Panel.Gpu, Panel.Keybindings]

/-- `InputMode`. -/
inductive InputMode where
  | Normal | Editing | Help | Confirm
deriving DecidableEq

/-- The key codes handled by the editor (`crossterm::KeyCode`). -/
inductive Key where
  | char (c : Char)
  | up | down | left | right
  | enter | esc | tab | backTab | backspace
  | other
deriving DecidableEq

/-- `App`: the editor state (the two `ListState` scroll selections are
their `selected` index). -/
structure App where
  config : AppearanceConfig
  original_config : AppearanceConfig
  current_panel : Panel
  sidebar_index : Nat
  field_index : Nat
  input_mode : InputMode
  has_changes : Bool
  status_message : Option String
  should_quit : Bool
  input_buffer : String
  available_themes : List String
  theme_index : Nat
  theme_filter : String
  filtered_themes : List String
  theme_list_state : Option Nat
  available_fonts : List String
  font_index : Nat
  font_filter : String
  filtered_fonts : List String
  font_list_state : Option Nat
deriving DecidableEq

/-- `get_field_count`. -/
def App.getFieldCount (a : App) : Nat :=
  match a.current_panel with
  | Panel.Themes => max a.filtered_themes.length 1
  | Panel.Colors => 23
  | Panel.Fonts => 5
  | Panel.Window => 10
  | Panel.Cursor => 5
  | Panel.Gpu => 3
  | Panel.Keybindings => 6

/-- `get_current_field_value` (a placeholder returning `""` in the
source). -/
def App.getCurrentFieldValue (_a : App) : String := ""

/-- `App::update_theme_filter`. -/
def App.updateThemeFilter (a : App) : App :=
  let filter := lowerStr a.theme_filter
  { a with
    filtered_themes := a.available_themes.filter (fun t => containsSubStr (lowerStr t) filter)
    theme_index := 0
    theme_list_state := some 0 }

/-- `App::update_font_filter`. -/
def App.updateFontFilter (a : App) : App :=
  let filter := lowerStr a.font_filter
  { a with
    filtered_fonts := a.available_fonts.filter (fun f => containsSubStr (lowerStr f) filter)
    font_index := 0
    font_list_state := some 0 }

/-- `App::apply_selected_theme`. -/
def App.applySelectedTheme (a : App) : App :=
  match a.filtered_themes[a.theme_index]? with
  | some theme_name =>
    { a with
      config := { a.config with color_scheme := some theme_name }
      has_changes := true
      status_message := some ("Theme set to: " ++ theme_name) }
  | none => a

/-- `App::apply_selected_font`. -/
def App.applySelectedFont (a : App) : App :=
  match a.filtered_fonts[a.font_index]? with
  | some font_name =>
    { a with
      config := { a.config with fonts := { a.config.fonts with family := font_name } }
      has_changes := true
      status_message := some ("Font set to: " ++ font_name) }
  | none => a

/-- `App::save_config`; `sv` is the result of the external
`config::save_config` call. -/
def App.saveConfig (sv : Except String Unit) (a : App) : App :=
  match sv with
  | Except.ok _ =>
    { a with
      has_changes := false
      original_config := a.config
      status_message := some "Config saved successfully!" }
  | Except.error e => { a with status_message := some ("Error saving config: " ++ e) }

/-- `App::toggle_keybinding`. -/
def App.toggleKeybinding (a : App) : App :=
  let toggled : Option (String × Bool) :=
    match a.field_index with
    | 1 => some ("Settings-TUI in command palette", ¬ a.config.keybindings.custom_commands.settings_tui)
    | 2 => some ("Rename Tab in command palette", ¬ a.config.keybindings.custom_commands.rename_tab)
    | 3 => some ("Ctrl+Click open link", ¬ a.config.keybindings.mouse.ctrl_click_open_link)
    | 4 => some ("Right-click command palette", ¬ a.config.keybindings.mouse.right_click_command_palette)
    | 5 => some ("Disable default keybindings", ¬ a.config.keybindings.disable_defaults)
    | 6 => some ("Leader key", ¬ a.config.keybindings.leader.enabled)
    | _ => none
  let a :=
    match a.field_index with
    | 1 => { a with config := { a.config with keybindings := { a.config.keybindings with
        custom_commands := { a.config.keybindings.custom_commands with
          settings_tui := ¬ a.config.keybindings.custom_commands.settings_tui } } } }
    | 2 => { a with config := { a.config with keybindings := { a.config.keybindings with
        custom_commands := { a.config.keybindings.custom_commands with
          rename_tab := ¬ a.config.keybindings.custom_commands.rename_tab } } } }
    | 3 => { a with config := { a.config with keybindings := { a.config.keybindings with
        mouse := { a.config.keybindings.mouse with
          ctrl_click_open_link := ¬ a.config.keybindings.mouse.ctrl_click_open_link } } } }
    | 4 => { a with config := { a.config with keybindings := { a.config.keybindings with
        mouse := { a.config.keybindings.mouse with
          right_click_command_palette := ¬ a.config.keybindings.mouse.right_click_command_palette } } } }
    | 5 => { a with config := { a.config with keybindings := { a.config.keybindings with
        disable_defaults := ¬ a.config.keybindings.disable_defaults } } }
    | 6 => { a with config := { a.config with keybindings := { a.config.keybindings with
        leader := { a.config.keybindings.leader with
          enabled := ¬ a.config.keybindings.leader.enabled } } } }
    | _ => a
  match toggled with
  | some (name, state) =>
    let state_str := if state then "enabled" else "disabled"
    { a with status_message := some (name ++ " " ++ state_str), has_changes := true }
  | none => a

/-- `App::navigate_up`. -/
def App.navigateUp (a : App) : App :=
  if a.field_index = 0 then
    if a.sidebar_index > 0 then
      let i := a.sidebar_index - 1
      { a with sidebar_index := i, current_panel := (Panel.all[i]?).getD a.current_panel }
    else a
  else { a with field_index := a.field_index - 1 }

/-- `App::navigate_down`. -/
def App.navigateDown (a : App) : App :=
  if a.field_index = 0 then
    if a.sidebar_index < Panel.all.length - 1 then
      let i := a.sidebar_index + 1
      { a with sidebar_index := i, current_panel := (Panel.all[i]?).getD a.current_panel }
    else a
  else
    if a.field_index < a.getFieldCount then { a with field_index := a.field_index + 1 }
    else a

/-- `App::next_field`. -/
def App.nextField (a : App) : App :=
  if a.field_index < a.getFieldCount then { a with field_index := a.field_index + 1 }
  else { a with field_index := 1 }

/-- `App::prev_field`. -/
def App.prevField (a : App) : App :=
  if a.field_index > 1 then { a with field_index := a.field_index - 1 }
  else { a with field_index := a.getFieldCount }

/-- `App::enter_edit_mode`. -/
def App.enterEditMode (a : App) : App :=
  if a.field_index = 0 then { a with field_index := 1 }
  else if a.current_panel = Panel.Fonts ∧ a.field_index = 1 then { a with field_index := 6 }
  else if a.current_panel = Panel.Fonts ∧ a.field_index ≤ 5 then
    { a with input_buffer := a.getCurrentFieldValue, input_mode := InputMode.Editing }
  else if a.current_panel = Panel.Keybindings then a.toggleKeybinding
  else { a with input_buffer := a.getCurrentFieldValue, input_mode := InputMode.Editing }

/-- `App::apply_edit` (the value-application is a placeholder in the
source; it sets the dirty flag and clears the buffer). -/
def App.applyEdit (a : App) : App :=
  { a with has_changes := true, input_buffer := "" }

/-- The quit request of Normal mode (`q` / Escape). -/
def App.quitRequest (a : App) : App :=
  if a.has_changes then { a with input_mode := InputMode.Confirm }
  else { a with should_quit := true }

/-- Theme-selector move up (`k` / Up with theme list focus). -/
def App.themeUp (a : App) : App :=
  if a.theme_index > 0 then
    let i := a.theme_index - 1
    { a with theme_index := i, theme_list_state := some i }
  else a

/-- Theme-selector move down (`j` / Down with theme list focus). -/
def App.themeDown (a : App) : App :=
  if a.theme_index + 1 < a.filtered_themes.length then
    let i := a.theme_index + 1
    { a with theme_index := i, theme_list_state := some i }
  else a

/-- Font-selector move up. -/
def App.fontUp (a : App) : App :=
  if a.font_index > 0 then
    let i := a.font_index - 1
    { a with font_index := i, font_list_state := some i }
  else a

/-- Font-selector move down. -/
def App.fontDown (a : App) : App :=
  if a.font_index + 1 < a.filtered_fonts.length then
    let i := a.font_index + 1
    { a with font_index := i, font_list_state := some i }
  else a

/-- The theme-selector interception block at the head of
`handle_normal_mode` (active when the Themes panel has field focus);
`none` falls through to the main key match. -/
def App.themesIntercept (k : Key) (a : App) : Option App :=
  match k with
  | Key.char c =>
    if c = '/' then
      some { a with input_mode := InputMode.Editing, input_buffer := a.theme_filter }
    else if c = 'k' then some a.themeUp
    else if c = 'j' then some a.themeDown
    else if c = 'h' then some { a with field_index := 0 }
    else none
  | Key.up => some a.themeUp
  | Key.down => some a.themeDown
  | Key.enter => some a.applySelectedTheme
  | Key.left => some { a with field_index := 0 }
  | _ => none

/-- The font-selector interception block of `handle_normal_mode`
(active on the Fonts panel when `field_index > 5`). -/
def App.fontsIntercept (k : Key) (a : App) : Option App :=
  match k with
  | Key.char c =>
    if c = '/' then
      some { a with input_mode := InputMode.Editing, input_buffer := a.font_filter }
    else if c = 'k' then some a.fontUp
    else if c = 'j' then some a.fontDown
    else if c = 'h' then some { a with field_index := 1 }
    else none
  | Key.up => some a.fontUp
  | Key.down => some a.fontDown
  | Key.enter => some a.applySelectedFont
  | Key.left => some { a with field_index := 1 }
  | _ => none

/-- The main key match of `handle_normal_mode`. -/
def App.normalMain (sv : Except String Unit) (k : Key) (ctrl : Bool) (a : App) : App :=
  match k with
  | Key.char c =>
    if c = 'q' then a.quitRequest
    else if c = 's' then (if ctrl then a.saveConfig sv else a)
    else if c = '?' then { a with input_mode := InputMode.Help }
    else if c = 'k' then a.navigateUp
    else if c = 'j' then a.navigateDown
    else if c = 'h' then { a with field_index := 0 }
    else if c = 'l' then a.enterEditMode
    else a
  | Key.esc => a.quitRequest
  | Key.up => a.navigateUp
  | Key.down => a.navigateDown
  | Key.left => { a with field_index := 0 }
  | Key.right => a.enterEditMode
  | Key.enter => a.enterEditMode
  | Key.tab => a.nextField
  | Key.backTab => a.prevField
  | _ => a

/-- `handle_normal_mode`. -/
def App.handleNormalMode (sv : Except String Unit) (k : Key) (ctrl : Bool) (a : App) : App :=
  if a.current_panel = Panel.Themes ∧ 0 < a.field_index then
    match a.themesIntercept k with
    | some a2 => a2
    | none => a.normalMain sv k ctrl
  else if a.current_panel = Panel.Fonts ∧ 5 < a.field_index then
    match a.fontsIntercept k with
    | some a2 => a2
    | none => a.normalMain sv k ctrl
  else a.normalMain sv k ctrl

/-- `handle_editing_mode`. -/
def App.handleEditingMode (k : Key) (a : App) : App :=
  if a.current_panel = Panel.Themes then
    match k with
    | Key.esc => { a with input_mode := InputMode.Normal, input_buffer := "" }
    | Key.enter =>
      let a := { a with theme_filter := a.input_buffer }
      let a := a.updateThemeFilter
      { a with input_mode := InputMode.Normal, input_buffer := "" }
    | Key.char c =>
      let b := strPush a.input_buffer c
      App.updateThemeFilter { a with input_buffer := b, theme_filter := b }
    | Key.backspace =>
      let b := strPop a.input_buffer
      App.updateThemeFilter { a with input_buffer := b, theme_filter := b }
    | _ => a
  else if a.current_panel = Panel.Fonts ∧ 5 < a.field_index then
    match k with
    | Key.esc => { a with input_mode := InputMode.Normal, input_buffer := "" }
    | Key.enter =>
      let a := { a with font_filter := a.input_buffer }
      let a := a.updateFontFilter
      { a with input_mode := InputMode.Normal, input_buffer := "" }
    | Key.char c =>
      let b := strPush a.input_buffer c
      App.updateFontFilter { a with input_buffer := b, font_filter := b }
    | Key.backspace =>
      let b := strPop a.input_buffer
      App.updateFontFilter { a with input_buffer := b, font_filter := b }
    | _ => a
  else
    match k with
    | Key.esc => { a with input_mode := InputMode.Normal, input_buffer := "" }
    | Key.enter => { a.applyEdit with input_mode := InputMode.Normal }
    | Key.char c => { a with input_buffer := strPush a.input_buffer c }
    | Key.backspace => { a with input_buffer := strPop a.input_buffer }
    | _ => a

/-- `handle_help_mode`: only Escape, `q` and `?` leave the overlay. -/
def App.handleHelpMode (k : Key) (a : App) : App :=
  match k with
  | Key.esc => { a with input_mode := InputMode.Normal }
  | Key.char c =>
    if c = 'q' ∨ c = '?' then { a with input_mode := InputMode.Normal } else a
  | _ => a

/-- `handle_confirm_mode`. -/
def App.handleConfirmMode (sv : Except String Unit) (k : Key) (a : App) : App :=
  match k with
  | Key.char c =>
    if c = 'y' ∨ c = 'Y' then { a with should_quit := true }
    else if c = 'n' ∨ c = 'N' then { a with input_mode := InputMode.Normal }
    else if c = 's' ∨ c = 'S' then { a.saveConfig sv with should_quit := true }
    else a
  | Key.esc => { a with input_mode := InputMode.Normal }
  | _ => a

/-- `handle_key`: clears the status message, then dispatches on the input
mode. -/
def App.handleKey (sv : Except String Unit) (k : Key) (ctrl : Bool) (a : App) : App :=
  let a2 := { a with status_message := none }
  match a.input_mode with
  | InputMode.Normal => a2.handleNormalMode sv k ctrl
  | InputMode.Editing => a2.handleEditingMode k
  | InputMode.Help => a2.handleHelpMode k
  | InputMode.Confirm => a2.handleConfirmMode sv k

/-- `get_builtin_themes`. -/
def getBuiltinThemes : List String :=
  ["Catppuccin Mocha", "Catppuccin Macchiato", "Catppuccin Frappe", "Catppuccin Latte",
   "Dracula", "Dracula+", "Gruvbox Dark", "Gruvbox dark, hard (base16)",
   "Gruvbox dark, medium (base16)", "Gruvbox dark, soft (base16)", "Gruvbox Light",
   "Nord", "Nord (Gogh)", "Tokyo Night", "Tokyo Night Storm", "Tokyo Night Moon",
   "tokyonight", "tokyonight_night", "tokyonight_storm", "Solarized Dark",
   "Solarized Dark Higher Contrast", "Solarized Light", "One Dark", "OneDark",
   "One Half Dark", "One Half Light", "Monokai", "Monokai Pro", "Monokai Remastered",
   "Monokai Soda", "GitHub Dark", "GitHub Light", "Kanagawa", "Kanagawa Dragon",
   "Kanagawa Wave", "rose-pine", "rose-pine-moon", "rose-pine-dawn", "Everforest Dark",
   "Everforest Light", "Material", "Material Dark", "Material Lighter", "Material Ocean",
   "Palenight", "Ayu Dark", "Ayu Light", "Ayu Mirage", "Afterglow", "Alabaster",
   "Base16", "Breeze", "Chalk", "Dark+", "Horizon Dark", "Horizon Bright", "Horizon",
   "Nightfly", "Night Owl", "Night Owlish Light", "Oceanic-Next", "Panda",
   "Papercolor Dark", "Papercolor Light", "Snazzy", "Synthwave", "Ubuntu", "Zenburn",
   "Cyberdyne", "CyberPunk2077", "DoomOne", "Espresso", "Flat", "Floraverse", "Grape",
   "Hipster Green", "IC_Green_PPL", "JetBrains Darcula", "Laser", "Lavandula", "Matrix",
   "Miramare", "Neon", "Nightfly", "Nova", "Ocean", "Operator Mono Dark", "Outrun Dark",
   "PaperColor Dark (base16)", "PaperColor Light (base16)", "Purplepeter", "Rebecca",
   "Sonokai", "SpaceGray", "Spacemacs", "SynthWave84", "Tango", "Twilight", "UltraDark",
   "Violet Dark", "Violet Light", "Wez", "Whimsy", "Wryan", "zenbones", "zenbones_dark",
   "zenbones_light"]

/-- `get_common_fonts`. -/
def getCommonFonts : List String :=
  ["JetBrainsMono Nerd Font", "FiraCode Nerd Font", "Hack Nerd Font",
   "CaskaydiaCove Nerd Font", "CaskaydiaMono Nerd Font", "Iosevka Nerd Font",
   "IosevkaTerm Nerd Font", "Iosevka Term", "MesloLGS Nerd Font", "MesloLGM Nerd Font",
   "MesloLGL Nerd Font", "SourceCodePro Nerd Font", "UbuntuMono Nerd Font",
   "RobotoMono Nerd Font", "DejaVuSansMono Nerd Font", "InconsolataGo Nerd Font",
   "Inconsolata Nerd Font", "VictorMono Nerd Font", "DroidSansMono Nerd Font",
   "Cousine Nerd Font", "BitstreamVeraSansMono Nerd Font", "CodeNewRoman Nerd Font",
   "Agave Nerd Font", "Anonymice Nerd Font", "Arimo Nerd Font",
   "AurulentSansMono Nerd Font", "BigBlueTerminal Nerd Font", "ComicShannsMono Nerd Font",
   "Fantasque Sans Mono Nerd Font", "FuraMono Nerd Font", "Gohu Nerd Font",
   "Go Mono Nerd Font", "Hasklug Nerd Font", "Hurmit Nerd Font",
   "iA Writer Mono Nerd Font", "IBMPlexMono Nerd Font", "Lilex Nerd Font",
   "Lekton Nerd Font", "LiterationMono Nerd Font", "M+ Nerd Font", "Monofur Nerd Font",
   "Monoid Nerd Font", "Mononoki Nerd Font", "Noto Mono Nerd Font",
   "OpenDyslexicMono Nerd Font", "Overpass Mono Nerd Font", "ProggyClean Nerd Font",
   "ProFont Nerd Font", "ShareTechMono Nerd Font", "SpaceMono Nerd Font",
   "Terminess Nerd Font", "Tinos Nerd Font", "Ubuntu Nerd Font", "0xProto Nerd Font",
   "3270 Nerd Font", "Zed Mono Nerd Font", "JetBrains Mono", "Fira Code",
   "Cascadia Code", "Cascadia Mono", "Source Code Pro", "Hack", "Iosevka", "Victor Mono",
   "IBM Plex Mono", "Inconsolata", "Monaco", "Menlo", "SF Mono", "Consolas",
   "Courier New", "DejaVu Sans Mono", "Ubuntu Mono", "Roboto Mono", "Droid Sans Mono",
   "Anonymous Pro", "PT Mono", "Noto Sans Mono", "Space Mono", "Input Mono",
   "Operator Mono", "Dank Mono", "MonoLisa", "Berkeley Mono", "Monaspace Neon",
   "Monaspace Argon", "Monaspace Xenon", "Monaspace Radon", "Monaspace Krypton",
   "Geist Mono", "Comic Code", "Maple Mono", "Commit Mono", "Intel One Mono"]

/-- `App::new` with no panel argument and the default-config load result:
the initial panel is Colors (sidebar position 1). -/
def App.init : App where
  config := AppearanceConfig.default
  original_config := AppearanceConfig.default
  current_panel := Panel.Colors
  sidebar_index := 1
  field_index := 0
  input_mode := InputMode.Normal
  has_changes := false
  status_message := none
  should_quit := false
  input_buffer := ""
  available_themes := getBuiltinThemes
  theme_index := 0
  theme_filter := ""
  filtered_themes := getBuiltinThemes
  theme_list_state := some 0
  available_fonts := getCommonFonts
  font_index := 0
  font_filter := ""
  filtered_fonts := getCommonFonts
  font_list_state := some 0

/-- Fold a list of key events through `handle_key` (all with the same
save outcome and no CTRL). -/
def App.applyKeys (sv : Except String Unit) (a : App) (ks : List Key) : App :=
  ks.foldl (fun s k => s.handleKey sv k false) a



/-! ## Concrete inputs used by the claim theorems -/

/-- The canonical extraction input (the content of the repository's
`test_parse_simple_config` test). -/
def canonicalContent : String :=
  "\n            local wezterm = require \x27wezterm\x27\n            local config = wezterm.config_builder()\n            \n            config.font_size = 14\n            config.font = wezterm.font(\"JetBrains Mono\")\n            config.window_background_opacity = 0.95\n            config.enable_tab_bar = false\n            \n            return config\n        "

/-- A content that contains the four canonical assignment substrings but
also an earlier `font_size = 9` assignment. -/
def dupFontSizeContent : String :=
  "font_size = 9\nfont_size = 14\nfont = wezterm.font(\"JetBrains Mono\")\nwindow_background_opacity = 0.95\nenable_tab_bar = false"

/-- An 8-element `ansi` array literal (the content of the repository's
`test_parse_color_array` test). -/
def ansi8Content : String :=
  "\n            ansi = \x7b \"#000000\", \"#ff0000\", \"#00ff00\", \"#ffff00\", \"#0000ff\", \"#ff00ff\", \"#00ffff\", \"#ffffff\" \x7d\n        "

/-- A 6-element `ansi` array literal. -/
def ansi6Content : String :=
  "ansi = \x7b \"#111111\", \"#222222\", \"#333333\", \"#444444\", \"#555555\", \"#666666\" \x7d"

/-- A `freetype_load_target` assignment whose quoted literal is not in
the freetype lookup table. -/
def badFreetypeContent : String := "freetype_load_target = \"Fancy\""

/-- The four navigation operations of the field-index claim. -/
def navKey (k : Key) : Prop :=
  k = Key.up ∨ k = Key.down ∨ k = Key.tab ∨ k = Key.backTab

/-! ## Round-trip lemmas for the interchange layer -/

/-- Decoding inverts encoding for `FontWeight`. -/
theorem encDec_fontWeight (w : FontWeight) : decFontWeight (encFontWeight w) = some w := by
  cases w <;> rfl

/-- Decoding inverts encoding for `FreetypeTarget`. -/
theorem encDec_freetypeTarget (t : FreetypeTarget) :
    decFreetypeTarget (encFreetypeTarget t) = some t := by
  cases t <;> rfl

/-- Variant of `encDec_fontWeight` stated on the serialized name. -/
theorem decFontWeight_name (w : FontWeight) :
    decFontWeight (JsonVal.str (fontWeightName w)) = some w := by
  cases w <;> rfl

/-- Variant of `encDec_freetypeTarget` stated on the serialized name. -/
theorem decFreetypeTarget_name (t : FreetypeTarget) :
    decFreetypeTarget (JsonVal.str (freetypeTargetName t)) = some t := by
  cases t <;> rfl

/-- Decoding inverts encoding for `WindowDecorations`. -/
theorem encDec_windowDecorations (d : WindowDecorations) :
    decWindowDecorations (encWindowDecorations d) = some d := by
  cases d <;> rfl

/-- Decoding inverts encoding for `CloseConfirmation`. -/
theorem encDec_closeConfirmation (c : CloseConfirmation) :
    decCloseConfirmation (encCloseConfirmation c) = some c := by
  cases c <;> rfl

/-- Decoding inverts encoding for `CursorStyle`. -/
theorem encDec_cursorStyle (c : CursorStyle) : decCursorStyle (encCursorStyle c) = some c := by
  cases c <;> rfl

/-- Decoding inverts encoding for `EaseFunction`. -/
theorem encDec_easeFunction (e : EaseFunction) :
    decEaseFunction (encEaseFunction e) = some e := by
  cases e <;> rfl

/-- Decoding inverts encoding for `ExitBehavior`. -/
theorem encDec_exitBehavior (e : ExitBehavior) :
    decExitBehavior (encExitBehavior e) = some e := by
  cases e <;> rfl

/-- Decoding inverts encoding for `AudibleBell`. -/
theorem encDec_audibleBell (a : AudibleBell) : decAudibleBell (encAudibleBell a) = some a := by
  cases a <;> rfl

/-- Decoding inverts encoding for `FrontEnd`. -/
theorem encDec_frontEnd (f : FrontEnd) : decFrontEnd (encFrontEnd f) = some f := by
  cases f <;> rfl

/-- Decoding inverts encoding for `PowerPreference`. -/
theorem encDec_powerPreference (p : PowerPreference) :
    decPowerPreference (encPowerPreference p) = some p := by
  cases p <;> rfl

/-- Decoding inverts encoding for `TabColors`. -/
theorem encDec_tabColors (t : TabColors) : decTabColors (encTabColors t) = some t := by
  cases t with | mk bg fg it => cases it <;> rfl

/-- Decoding inverts encoding for `TabBarColors`. -/
theorem encDec_tabBarColors (t : TabBarColors) :
    decTabBarColors (encTabBarColors t) = some t := by
  cases t
  simp [decTabBarColors, encTabBarColors, getStr, getVia, lookupJ, Option.bind,
    encDec_tabColors]

/-- Decoding inverts encoding for `[String; 8]`. -/
theorem encDec_strArr8 (a : StrArr8) : decStrArr8 (encStrArr8 a) = some a := by
  cases a
  rfl

/-- Decoding inverts encoding for a list of strings. -/
theorem decStrs_map_str (l : List String) : decStrs (l.map JsonVal.str) = some l := by
  induction l with
  | nil => rfl
  | cons x xs ih => simp [decStrs, decStr, ih]

/-- Decoding inverts encoding for `ColorScheme`. -/
theorem encDec_colorScheme (c : ColorScheme) : decColorScheme (encColorScheme c) = some c := by
  cases c with
  | mk fg bg cbg cbd cfg sbg sfg ansi brights tb vb st sp =>
    cases vb <;> cases st <;> cases sp <;>
      simp [decColorScheme, encColorScheme, getStr, getVia, getOptVia, lookupJ,
        Option.bind, optField, encDec_strArr8, encDec_tabBarColors, decStr]

/-- Decoding inverts encoding for `FontConfig`. -/
theorem encDec_fontConfig (f : FontConfig) : decFontConfig (encFontConfig f) = some f := by
  cases f with
  | mk fam sz w lt rt =>
    cases w <;> cases lt <;> cases rt <;>
      simp [decFontConfig, encFontConfig, getStr, getNum, getOptVia, lookupJ,
        Option.bind, optField, encFontWeight, encFreetypeTarget,
        decFontWeight_name, decFreetypeTarget_name]

/-- Decoding inverts encoding for `Padding`. -/
theorem encDec_padding (p : Padding) : decPadding (encPadding p) = some p := by
  cases p
  rfl

/-- Decoding inverts encoding for `HSB`. -/
theorem encDec_hsb (h : HSB) : decHSB (encHSB h) = some h := by
  cases h
  rfl

/-- Decoding inverts encoding for `WindowConfig`. -/
theorem encDec_windowConfig (w : WindowConfig) :
    decWindowConfig (encWindowConfig w) = some w := by
  cases w
  simp [decWindowConfig, encWindowConfig, getVia, getNum, getBool, getNat, lookupJ,
    Option.bind, encNat, encDec_padding, encDec_windowDecorations, encDec_hsb,
    encDec_closeConfirmation]

/-- Decoding inverts encoding for `CursorConfig`. -/
theorem encDec_cursorConfig (c : CursorConfig) :
    decCursorConfig (encCursorConfig c) = some c := by
  cases c
  simp [decCursorConfig, encCursorConfig, getVia, getNat, lookupJ, Option.bind, encNat,
    encDec_cursorStyle, encDec_easeFunction]

/-- Decoding inverts encoding for `BackdropConfig`. -/
theorem encDec_backdropConfig (b : BackdropConfig) :
    decBackdropConfig (encBackdropConfig b) = some b := by
  cases b
  simp [decBackdropConfig, encBackdropConfig, getBool, getStr, getVia, getNum, getNat,
    lookupJ, Option.bind, encNat, decStrList, decStrs_map_str]

/-- Decoding inverts encoding for `CommandPaletteConfig`. -/
theorem encDec_commandPaletteConfig (c : CommandPaletteConfig) :
    decCommandPaletteConfig (encCommandPaletteConfig c) = some c := by
  cases c
  rfl

/-- Decoding inverts encoding for `VisualBellConfig`. -/
theorem encDec_visualBellConfig (v : VisualBellConfig) :
    decVisualBellConfig (encVisualBellConfig v) = some v := by
  cases v
  simp [decVisualBellConfig, encVisualBellConfig, getNat, getVia, getStr, lookupJ,
    Option.bind, encNat, encDec_easeFunction]

/-- Decoding inverts encoding for `GeneralConfig`. -/
theorem encDec_generalConfig (g : GeneralConfig) :
    decGeneralConfig (encGeneralConfig g) = some g := by
  cases g
  simp [decGeneralConfig, encGeneralConfig, getBool, getNat, getVia, lookupJ,
    Option.bind, encNat, encDec_exitBehavior, encDec_audibleBell]

/-- Decoding inverts encoding for `GPUConfig`. -/
theorem encDec_gpuConfig (g : GPUConfig) : decGPUConfig (encGPUConfig g) = some g := by
  cases g
  simp [decGPUConfig, encGPUConfig, getVia, getNat, lookupJ, Option.bind, encNat,
    encDec_frontEnd, encDec_powerPreference]

/-- Decoding inverts encoding for `KeyBinding`. -/
theorem encDec_keyBinding (k : KeyBinding) : decKeyBinding (encKeyBinding k) = some k := by
  cases k
  rfl

/-- Decoding inverts encoding for `LeaderKeyConfig`. -/
theorem encDec_leaderKeyConfig (l : LeaderKeyConfig) :
    decLeaderKeyConfig (encLeaderKeyConfig l) = some l := by
  cases l
  simp [decLeaderKeyConfig, encLeaderKeyConfig, getBool, getStr, getNat, lookupJ,
    Option.bind, encNat]

/-- Decoding inverts encoding for `MiscBindings`. -/
theorem encDec_miscBindings (b : MiscBindings) :
    decMiscBindings (encMiscBindings b) = some b := by
  cases b
  simp [decMiscBindings, encMiscBindings, getVia, lookupJ, Option.bind, encDec_keyBinding]

/-- Decoding inverts encoding for `CopyPasteBindings`. -/
theorem encDec_copyPasteBindings (b : CopyPasteBindings) :
    decCopyPasteBindings (encCopyPasteBindings b) = some b := by
  cases b
  simp [decCopyPasteBindings, encCopyPasteBindings, getVia, lookupJ, Option.bind,
    encDec_keyBinding]

/-- Decoding inverts encoding for `TabBindings`. -/
theorem encDec_tabBindings (b : TabBindings) : decTabBindings (encTabBindings b) = some b := by
  cases b
  simp [decTabBindings, encTabBindings, getVia, lookupJ, Option.bind, encDec_keyBinding]

/-- Decoding inverts encoding for `WindowBindings`. -/
theorem encDec_windowBindings (b : WindowBindings) :
    decWindowBindings (encWindowBindings b) = some b := by
  cases b
  simp [decWindowBindings, encWindowBindings, getVia, lookupJ, Option.bind,
    encDec_keyBinding]

/-- Decoding inverts encoding for `PaneBindings`. -/
theorem encDec_paneBindings (b : PaneBindings) :
    decPaneBindings (encPaneBindings b) = some b := by
  cases b
  simp [decPaneBindings, encPaneBindings, getVia, lookupJ, Option.bind, encDec_keyBinding]

/-- Decoding inverts encoding for `BackdropBindings`. -/
theorem encDec_backdropBindings (b : BackdropBindings) :
    decBackdropBindings (encBackdropBindings b) = some b := by
  cases b
  simp [decBackdropBindings, encBackdropBindings, getVia, lookupJ, Option.bind,
    encDec_keyBinding]

/-- Decoding inverts encoding for `CursorBindings`. -/
theorem encDec_cursorBindings (b : CursorBindings) :
    decCursorBindings (encCursorBindings b) = some b := by
  cases b
  simp [decCursorBindings, encCursorBindings, getVia, lookupJ, Option.bind,
    encDec_keyBinding]

/-- Decoding inverts encoding for `KeyTableBindings`. -/
theorem encDec_keyTableBindings (b : KeyTableBindings) :
    decKeyTableBindings (encKeyTableBindings b) = some b := by
  cases b
  simp [decKeyTableBindings, encKeyTableBindings, getVia, lookupJ, Option.bind,
    encDec_keyBinding]

/-- Decoding inverts encoding for `MouseBindings`. -/
theorem encDec_mouseBindings (b : MouseBindings) :
    decMouseBindings (encMouseBindings b) = some b := by
  cases b
  rfl

/-- Decoding inverts encoding for `CustomCommands`. -/
theorem encDec_customCommands (b : CustomCommands) :
    decCustomCommands (encCustomCommands b) = some b := by
  cases b
  rfl

/-- Decoding inverts encoding for `KeyBindingsConfig`. -/
theorem encDec_keyBindingsConfig (b : KeyBindingsConfig) :
    decKeyBindingsConfig (encKeyBindingsConfig b) = some b := by
  cases b
  simp [decKeyBindingsConfig, encKeyBindingsConfig, getBool, getVia, lookupJ, Option.bind,
    encDec_leaderKeyConfig, encDec_miscBindings, encDec_copyPasteBindings,
    encDec_tabBindings, encDec_windowBindings, encDec_paneBindings,
    encDec_backdropBindings, encDec_cursorBindings, encDec_keyTableBindings,
    encDec_mouseBindings, encDec_customCommands]

/-- C1: for every value of the `AppearanceConfig` model, serializing it
with the export operation and deserializing the result with the import
operation yields a model structurally equal to the original — for all
field types, including the fixed-size 8-element `ansi`/`brights` arrays,
all optional fields (`color_scheme`, font weight, freetype targets,
italic flags), and the nested keybinding records. -/
theorem c1_export_import_roundtrip (c : AppearanceConfig) :
    importConfig (exportConfig c) = some c := by
  cases c with
  | mk cs co fo wi cu ba gp ge cp vb kb =>
    cases cs <;>
      simp [importConfig, exportConfig, getOptVia, getVia, lookupJ, Option.bind,
        optField, decStr, encDec_colorScheme, encDec_fontConfig, encDec_windowConfig,
        encDec_cursorConfig, encDec_backdropConfig, encDec_gpuConfig,
        encDec_generalConfig, encDec_commandPaletteConfig, encDec_visualBellConfig,
        encDec_keyBindingsConfig]

/-! ## Helper lemmas for the extraction engine -/

/-- A non-matching pattern leaves the state unchanged. -/
theorem applyOpt_none {α β : Type} (f : β → α → α) (x : α) : applyOpt none f x = x := rfl

/-- A matching pattern applies its update. -/
theorem applyOpt_some {α β : Type} (v : β) (f : β → α → α) (x : α) :
    applyOpt (some v) f x = f v x := rfl

/-- A field update that preserves a projection preserves it through
`applyOpt`. -/
theorem applyOpt_proj {α β γ : Type} (proj : α → γ) (o : Option β) (f : β → α → α) (x : α)
    (h : ∀ v y, proj (f v y) = proj y) : proj (applyOpt o f x) = proj x := by
  cases o with
  | none => rfl
  | some v => exact h v x

/-- `try_into::<[String; 8]>` succeeds on every 8-element list and keeps
the elements in order. -/
theorem strArr8_exists_ofList (l : List String) (h : l.length = 8) :
    ∃ a : StrArr8, StrArr8.ofList l = some a ∧ a.toList = l := by
  match l, h with
  | [x0, x1, x2, x3, x4, x5, x6, x7], _ => exact ⟨_, rfl, rfl⟩

/-- Setting `tab_bar` does not change `ansi`. -/
theorem set_tabBar_ansi (z : ColorScheme) (w : TabBarColors) :
    ({ z with tab_bar := w } : ColorScheme).ansi = z.ansi := rfl

/-- Setting `tab_bar` does not change `brights`. -/
theorem set_tabBar_brights (z : ColorScheme) (w : TabBarColors) :
    ({ z with tab_bar := w } : ColorScheme).brights = z.brights := rfl

/-- Reading back an `ansi` update. -/
theorem set_ansi_ansi (z : ColorScheme) (w : StrArr8) :
    ({ z with ansi := w } : ColorScheme).ansi = w := rfl

/-- Reading back a `brights` update. -/
theorem set_brights_brights (z : ColorScheme) (w : StrArr8) :
    ({ z with brights := w } : ColorScheme).brights = w := rfl

/-- The `ansi` field after `parse_colors`: overwritten exactly when the
matched array has exactly 8 quoted strings, otherwise unchanged. -/
theorem parseColors_ansi (content : List Char) (c0 : ColorScheme) (c : ColorScheme)
    (h : parseColors content c0 = Except.ok c) :
    (match extractColorArray content "ansi" with
     | some l => if l.length = 8 then c.ansi.toList = l else c.ansi = c0.ansi
     | none => c.ansi = c0.ansi) := by
  simp only [parseColors, Except.ok.injEq] at h
  subst h
  rw [set_tabBar_ansi]
  rw [applyOpt_proj ColorScheme.ansi _ _ _ (fun v y => by split <;> rfl)]
  split
  next l heq =>
    rw [heq, applyOpt_some]
    by_cases h8 : l.length = 8
    · rw [if_pos h8, if_pos h8, set_ansi_ansi]
      obtain ⟨a, ha, hta⟩ := strArr8_exists_ofList l h8
      rw [ha, Option.getD_some, hta]
    · rw [if_neg h8, if_neg h8]
      iterate 7 rw [applyOpt_proj ColorScheme.ansi _ _ _ (fun _ _ => by rfl)]
  next heq =>
    rw [heq, applyOpt_none]
    iterate 7 rw [applyOpt_proj ColorScheme.ansi _ _ _ (fun _ _ => by rfl)]

/-- The `brights` field after `parse_colors`, analogously. -/
theorem parseColors_brights (content : List Char) (c0 : ColorScheme) (c : ColorScheme)
    (h : parseColors content c0 = Except.ok c) :
    (match extractColorArray content "brights" with
     | some l => if l.length = 8 then c.brights.toList = l else c.brights = c0.brights
     | none => c.brights = c0.brights) := by
  simp only [parseColors, Except.ok.injEq] at h
  subst h
  rw [set_tabBar_brights]
  split
  next l heq =>
    rw [heq, applyOpt_some]
    by_cases h8 : l.length = 8
    · rw [if_pos h8, if_pos h8, set_brights_brights]
      obtain ⟨a, ha, hta⟩ := strArr8_exists_ofList l h8
      rw [ha, Option.getD_some, hta]
    · rw [if_neg h8, if_neg h8]
      rw [applyOpt_proj ColorScheme.brights _ _ _ (fun v y => by split <;> rfl)]
      iterate 7 rw [applyOpt_proj ColorScheme.brights _ _ _ (fun _ _ => by rfl)]
  next heq =>
    rw [heq, applyOpt_none]
    rw [applyOpt_proj ColorScheme.brights _ _ _ (fun v y => by split <;> rfl)]
    iterate 7 rw [applyOpt_proj ColorScheme.brights _ _ _ (fun _ _ => by rfl)]

/-! ## Claim theorems: the extraction engine -/

/-- C2 (counterexample): an input that contains all four canonical
assignment substrings, on which `parse_lua_content` nevertheless does not
return `fonts.size = 14` — the extractor takes the first `font_size`
match in the text (here `font_size = 9`), so the claimed conclusion fails
for this input. -/
theorem c2_counterexample :
    containsSubStr dupFontSizeContent "font_size = 14" = true ∧
    containsSubStr dupFontSizeContent "font = wezterm.font(\"JetBrains Mono\")" = true ∧
    containsSubStr dupFontSizeContent "window_background_opacity = 0.95" = true ∧
    containsSubStr dupFontSizeContent "enable_tab_bar = false" = true ∧
    (∃ r, parseLuaContent dupFontSizeContent = Except.ok r ∧
      r.config.fonts.size = 9) ∧
    (9 : ℚ) ≠ 14 := by
  refine ⟨by decide, by decide, by decide, by decide, ⟨_, rfl, rfl⟩, by norm_num⟩

/-- C2 (amended): for the canonical input of the repository's
`test_parse_simple_config` test, `parse_lua_content` succeeds and yields
`fonts.size = 14`, `fonts.family = "JetBrains Mono"`,
`window.window_background_opacity = 0.95`,
`window.enable_tab_bar = false`, with every other field at its default
value and no warnings. -/
theorem c2_canonical_extraction :
    parseLuaContent canonicalContent = Except.ok
      { config := { AppearanceConfig.default with
          fonts := { AppearanceConfig.default.fonts with
            size := 14, family := "JetBrains Mono" }
          window := { AppearanceConfig.default.window with
            window_background_opacity := 0.95, enable_tab_bar := false } }
        raw_content := canonicalContent
        parse_errors := [] } := by
  rfl

/-- C3: for any input text, the `ansi` (resp. `brights`) field of the
parsed model is overwritten exactly when the matched array literal
contains exactly 8 quoted strings — in which case the field becomes those
8 strings in source order — and keeps its prior default value for any
other match count; no warning is generated either way. -/
theorem c3_color_array_exact_eight (content : String) (r : ParseResult)
    (h : parseLuaContent content = Except.ok r) :
    (match extractColorArray content.toList "ansi" with
     | some l => if l.length = 8 then r.config.colors.ansi.toList = l
                 else r.config.colors.ansi = ColorScheme.default.ansi
     | none => r.config.colors.ansi = ColorScheme.default.ansi) ∧
    (match extractColorArray content.toList "brights" with
     | some l => if l.length = 8 then r.config.colors.brights.toList = l
                 else r.config.colors.brights = ColorScheme.default.brights
     | none => r.config.colors.brights = ColorScheme.default.brights) ∧
    r.parse_errors = [] := by
  have hc : parseColors content.toList ColorScheme.default = Except.ok r.config.colors := by
    cases h
    rfl
  refine ⟨parseColors_ansi _ _ _ hc, parseColors_brights _ _ _ hc, ?_⟩
  cases h
  rfl

/-- C3 (witness): the general theorem applied to the repository's
8-element test array and to a 6-element array. -/
theorem c3_color_array_exact_eight_witness :
    (∃ r, parseLuaContent ansi8Content = Except.ok r ∧
      ((match extractColorArray ansi8Content.toList "ansi" with
        | some l => if l.length = 8 then r.config.colors.ansi.toList = l
                    else r.config.colors.ansi = ColorScheme.default.ansi
        | none => r.config.colors.ansi = ColorScheme.default.ansi) ∧
       (match extractColorArray ansi8Content.toList "brights" with
        | some l => if l.length = 8 then r.config.colors.brights.toList = l
                    else r.config.colors.brights = ColorScheme.default.brights
        | none => r.config.colors.brights = ColorScheme.default.brights) ∧
       r.parse_errors = [])) ∧
    (∃ r, parseLuaContent ansi6Content = Except.ok r ∧
      ((match extractColorArray ansi6Content.toList "ansi" with
        | some l => if l.length = 8 then r.config.colors.ansi.toList = l
                    else r.config.colors.ansi = ColorScheme.default.ansi
        | none => r.config.colors.ansi = ColorScheme.default.ansi) ∧
       (match extractColorArray ansi6Content.toList "brights" with
        | some l => if l.length = 8 then r.config.colors.brights.toList = l
                    else r.config.colors.brights = ColorScheme.default.brights
        | none => r.config.colors.brights = ColorScheme.default.brights) ∧
       r.parse_errors = [])) :=
  ⟨⟨_, rfl, c3_color_array_exact_eight ansi8Content _ rfl⟩,
   ⟨_, rfl, c3_color_array_exact_eight ansi6Content _ rfl⟩⟩

/-- C6: for every input content string, `parse_lua_content` returns a
successful result bundling the extracted model, the original raw text and
the (here always empty — no section extractor can fail) ordered warning
list; only reading the file itself is reported as an error, by
`parse_wezterm_config`. -/
theorem c6_parse_never_fatal :
    (∀ content : String, ∃ r : ParseResult,
       parseLuaContent content = Except.ok r ∧ r.raw_content = content ∧
       r.parse_errors = []) ∧
    (∀ content : String, parseWeztermConfig (Except.ok content) = parseLuaContent content) ∧
    (∀ e : String, parseWeztermConfig (Except.error e) =
       Except.error ("Failed to read config file: " ++ e)) :=
  ⟨fun _ => ⟨_, rfl, rfl, rfl⟩, fun _ => rfl, fun _ => rfl⟩

/-- C5 (counterexample): the freetype-target extraction pattern matches
the literal `"Fancy"`, which is not in the freetype lookup table; the
field is then *cleared to `none`* — which is not a variant of the
enumeration, and in particular differs from the prior default value
`some Normal` — rather than being set to a default fallback variant. -/
theorem c5_counterexample :
    extractStringValue badFreetypeContent.toList (simplePre "freetype_load_target") =
      some "Fancy" ∧
    (∃ r, parseLuaContent badFreetypeContent = Except.ok r ∧
      r.config.fonts.freetype_load_target = none) ∧
    AppearanceConfig.default.fonts.freetype_load_target = some FreetypeTarget.Normal := by
  refine ⟨by decide, ⟨_, rfl, rfl⟩, rfl⟩

/-- C5 (amended): extraction never fails on unrecognized enumeration
literals.  For the non-optional enumerations, an unrecognized literal
decodes to that decoder's fixed default variant (window decorations →
`Full`, close confirmation → `NeverPrompt`, cursor style →
`BlinkingBlock`, ease function → `EaseOut`, front end → `WebGpu`, power
preference → `HighPerformance`), and the close-confirmation decoder maps
both an unrecognized literal and `"NeverPrompt"` to `NeverPrompt`.  For
the optional enumerations (font weight, freetype load/render targets) an
unrecognized literal instead sets the field to absent (`none`), as the
last conjunct shows for the load target. -/
theorem c5_enum_fallback_variants :
    (∀ s : String, upperStr s ∉
        (["FULL", "RESIZE", "NONE", "TITLE", "INTEGRATED_BUTTONS|RESIZE"] : List String) →
      parseWindowDecorations s = WindowDecorations.Full) ∧
    (∀ s : String, s ≠ "AlwaysPrompt" →
      parseCloseConfirmation s = CloseConfirmation.NeverPrompt) ∧
    parseCloseConfirmation "NeverPrompt" = CloseConfirmation.NeverPrompt ∧
    (∀ s : String, s ∉ (["SteadyBlock", "BlinkingBlock", "SteadyUnderline",
        "BlinkingUnderline", "SteadyBar", "BlinkingBar"] : List String) →
      parseCursorStyle s = CursorStyle.BlinkingBlock) ∧
    (∀ s : String, s ∉ (["Linear", "EaseIn", "EaseOut", "EaseInOut", "Constant"] : List String) →
      parseEaseFunction s = EaseFunction.EaseOut) ∧
    (∀ s : String, s ∉ (["WebGpu", "OpenGL", "Software"] : List String) →
      parseFrontEnd s = FrontEnd.WebGpu) ∧
    (∀ s : String, s ∉ (["LowPower", "HighPerformance"] : List String) →
      parsePowerPreference s = PowerPreference.HighPerformance) ∧
    (∀ s : String, lowerStr s ∉ (["thin", "extralight", "extra-light", "light", "regular",
        "normal", "medium", "demibold", "demi-bold", "semibold", "semi-bold", "bold",
        "extrabold", "extra-bold", "black", "heavy"] : List String) →
      parseFontWeight s = none) ∧
    (∀ s : String, lowerStr s ∉
        (["normal", "light", "mono", "horizontallcd", "horizontal_lcd"] : List String) →
      parseFreetypeTarget s = none) ∧
    (∀ (content : List Char) (f0 f : FontConfig) (v : String),
      parseFonts content f0 = Except.ok f →
      extractStringValue content (simplePre "freetype_load_target") = some v →
      f.freetype_load_target = parseFreetypeTarget v) := by
  refine ⟨?_, ?_, rfl, ?_, ?_, ?_, ?_, ?_, ?_, ?_⟩
  · intro s hs
    simp only [List.mem_cons, List.not_mem_nil, or_false, not_or] at hs
    obtain ⟨h1, h2, h3, h4, h5⟩ := hs
    simp [parseWindowDecorations, h1, h2, h3, h4, h5]
  · intro s hs
    simp [parseCloseConfirmation, hs]
  · intro s hs
    simp only [List.mem_cons, List.not_mem_nil, or_false, not_or] at hs
    obtain ⟨h1, h2, h3, h4, h5, h6⟩ := hs
    simp [parseCursorStyle, h1, h2, h3, h4, h5, h6]
  · intro s hs
    simp only [List.mem_cons, List.not_mem_nil, or_false, not_or] at hs
    obtain ⟨h1, h2, h3, h4, h5⟩ := hs
    simp [parseEaseFunction, h1, h2, h3, h4, h5]
  · intro s hs
    simp only [List.mem_cons, List.not_mem_nil, or_false, not_or] at hs
    obtain ⟨h1, h2, h3⟩ := hs
    simp [parseFrontEnd, h1, h2, h3]
  · intro s hs
    simp only [List.mem_cons, List.not_mem_nil, or_false, not_or] at hs
    obtain ⟨h1, h2⟩ := hs
    simp [parsePowerPreference, h1, h2]
  · intro s hs
    simp only [List.mem_cons, List.not_mem_nil, or_false, not_or] at hs
    obtain ⟨h1, h2, h3, h4, h5, h6, h7, h8, h9, h10, h11, h12, h13, h14, h15, h16⟩ := hs
    simp [parseFontWeight, h1, h2, h3, h4, h5, h6, h7, h8, h9, h10, h11, h12, h13, h14,
      h15, h16]
  · intro s hs
    simp only [List.mem_cons, List.not_mem_nil, or_false, not_or] at hs
    obtain ⟨h1, h2, h3, h4, h5⟩ := hs
    simp [parseFreetypeTarget, h1, h2, h3, h4, h5]
  · intro content f0 f v h hv
    simp only [parseFonts, Except.ok.injEq] at h
    subst h
    rw [applyOpt_proj FontConfig.freetype_load_target _ _ _ (fun _ _ => by rfl)]
    rw [hv, applyOpt_some]

/-- C5 (witness): the amended theorem applied at concrete unrecognized
literals and at the concrete bad-freetype input. -/
theorem c5_enum_fallback_variants_witness :
    parseWindowDecorations "Fancy" = WindowDecorations.Full ∧
    parseCloseConfirmation "Sometimes" = CloseConfirmation.NeverPrompt ∧
    parseFreetypeTarget "Fancy" = none ∧
    (∃ f, parseFonts badFreetypeContent.toList FontConfig.default = Except.ok f ∧
      f.freetype_load_target = parseFreetypeTarget "Fancy") :=
  ⟨c5_enum_fallback_variants.1 "Fancy" (by decide),
   c5_enum_fallback_variants.2.1 "Sometimes" (by decide),
   c5_enum_fallback_variants.2.2.2.2.2.2.2.2.1 "Fancy" (by decide),
   ⟨_, rfl, c5_enum_fallback_variants.2.2.2.2.2.2.2.2.2 _ _ _ "Fancy" rfl (by decide)⟩⟩

/-! ## Claim theorems: the interactive editor -/

/-- C4: evaluation of Help mode at the failing input.  In Help mode a key
press other than Escape / `q` / `?` (here `x`) leaves the editor in Help
mode and changes nothing but the cleared status message, contradicting
the claim (and the program's own Help footer, "Press any key to close")
that any key returns to Normal; only Escape, `q` and `?` do. -/
theorem c4_help_mode_eval :
    (App.handleKey (Except.ok ()) (Key.char 'x') false
        { App.init with input_mode := InputMode.Help } =
      { App.init with input_mode := InputMode.Help, status_message := none }) ∧
    ((App.handleKey (Except.ok ()) (Key.char 'x') false
        { App.init with input_mode := InputMode.Help }).input_mode = InputMode.Help) ∧
    ((App.handleKey (Except.ok ()) Key.esc false
        { App.init with input_mode := InputMode.Help }).input_mode = InputMode.Normal) ∧
    ((App.handleKey (Except.ok ()) (Key.char 'q') false
        { App.init with input_mode := InputMode.Help }).input_mode = InputMode.Normal) ∧
    ((App.handleKey (Except.ok ()) (Key.char '?') false
        { App.init with input_mode := InputMode.Help }).input_mode = InputMode.Normal) :=
  ⟨rfl, rfl, rfl, rfl, rfl⟩

/-- C7: the searchable-selector filter invariant.  The two recompute
operations always produce exactly the case-insensitive-substring
filtered sublist (in order, via `List.filter`) with selection index 0;
and after every filter-changing edit event of the theme (resp. font)
selector — character input, backspace, and the Enter commit — the
filtered list equals exactly that filter of the full available list
against the new current filter and the selection index is 0. -/
theorem c7_filter_invariant :
    (∀ a : App,
      (App.updateThemeFilter a).filtered_themes =
        a.available_themes.filter
          (fun t => containsSubStr (lowerStr t) (lowerStr a.theme_filter)) ∧
      (App.updateThemeFilter a).theme_index = 0) ∧
    (∀ a : App,
      (App.updateFontFilter a).filtered_fonts =
        a.available_fonts.filter
          (fun t => containsSubStr (lowerStr t) (lowerStr a.font_filter)) ∧
      (App.updateFontFilter a).font_index = 0) ∧
    (∀ (a : App) (sv : Except String Unit) (k : Key),
      a.input_mode = InputMode.Editing → a.current_panel = Panel.Themes →
      (k = Key.enter ∨ k = Key.backspace ∨ ∃ c, k = Key.char c) →
      ((App.handleKey sv k false a).filtered_themes =
        (App.handleKey sv k false a).available_themes.filter
          (fun t => containsSubStr (lowerStr t)
            (lowerStr (App.handleKey sv k false a).theme_filter)) ∧
       (App.handleKey sv k false a).theme_index = 0)) ∧
    (∀ (a : App) (sv : Except String Unit) (k : Key),
      a.input_mode = InputMode.Editing → a.current_panel = Panel.Fonts →
      5 < a.field_index →
      (k = Key.enter ∨ k = Key.backspace ∨ ∃ c, k = Key.char c) →
      ((App.handleKey sv k false a).filtered_fonts =
        (App.handleKey sv k false a).available_fonts.filter
          (fun t => containsSubStr (lowerStr t)
            (lowerStr (App.handleKey sv k false a).font_filter)) ∧
       (App.handleKey sv k false a).font_index = 0)) := by
  refine ⟨?_, ?_, ?_, ?_⟩
  · intro a
    exact ⟨rfl, rfl⟩
  · intro a
    exact ⟨rfl, rfl⟩
  · intro a sv k h1 h2 hk
    rcases hk with rfl | rfl | ⟨c, rfl⟩ <;>
      simp [App.handleKey, h1, h2, App.handleEditingMode, App.updateThemeFilter]
  · intro a sv k h1 h2 h3 hk
    rcases hk with rfl | rfl | ⟨c, rfl⟩ <;>
      simp [App.handleKey, h1, h2, h3, App.handleEditingMode, App.updateFontFilter]

/-- C7 (witness): a concrete character edit in the theme selector of the
initial state. -/
theorem c7_filter_invariant_witness :
    ((App.handleKey (Except.ok ()) (Key.char 'd') false
        { App.init with
          input_mode := InputMode.Editing, current_panel := Panel.Themes }).filtered_themes =
      (App.handleKey (Except.ok ()) (Key.char 'd') false
        { App.init with
          input_mode := InputMode.Editing, current_panel := Panel.Themes }).available_themes.filter
        (fun t => containsSubStr (lowerStr t)
          (lowerStr (App.handleKey (Except.ok ()) (Key.char 'd') false
            { App.init with
              input_mode := InputMode.Editing, current_panel := Panel.Themes }).theme_filter)) ∧
     (App.handleKey (Except.ok ()) (Key.char 'd') false
        { App.init with
          input_mode := InputMode.Editing, current_panel := Panel.Themes }).theme_index = 0) :=
  c7_filter_invariant.2.2.1
    { App.init with
      input_mode := InputMode.Editing, current_panel := Panel.Themes }
    (Except.ok ()) (Key.char 'd') rfl rfl (Or.inr (Or.inr ⟨'d', rfl⟩))

/-- C9: dirty-flag lifecycle.  Applying a selected theme or font,
committing the edit buffer, and toggling a keybinding each set the dirty
flag (the applies also record the chosen value, the toggle also sets a
status message); a successful save clears the flag, replaces the baseline
snapshot with the current model and sets a status message; a failed save
leaves the flag unchanged (hence set) and produces the non-empty error
status message. -/
theorem c9_dirty_flag_lifecycle :
    (∀ (a : App) (t : String), a.filtered_themes[a.theme_index]? = some t →
      (a.applySelectedTheme).has_changes = true ∧
      (a.applySelectedTheme).config.color_scheme = some t) ∧
    (∀ (a : App) (t : String), a.filtered_fonts[a.font_index]? = some t →
      (a.applySelectedFont).has_changes = true ∧
      (a.applySelectedFont).config.fonts.family = t) ∧
    (∀ a : App, (a.applyEdit).has_changes = true) ∧
    (∀ a : App, 1 ≤ a.field_index → a.field_index ≤ 6 →
      (a.toggleKeybinding).has_changes = true ∧
      (a.toggleKeybinding).status_message ≠ none) ∧
    (∀ a : App, (a.saveConfig (Except.ok ())).has_changes = false ∧
      (a.saveConfig (Except.ok ())).original_config = a.config ∧
      (a.saveConfig (Except.ok ())).status_message = some "Config saved successfully!") ∧
    (∀ (a : App) (e : String),
      (a.saveConfig (Except.error e)).has_changes = a.has_changes ∧
      (a.saveConfig (Except.error e)).status_message =
        some ("Error saving config: " ++ e) ∧
      0 < ("Error saving config: " ++ e).length) := by
  refine ⟨?_, ?_, fun a => rfl, ?_, fun a => ⟨rfl, rfl, rfl⟩, ?_⟩
  · intro a t h
    simp [App.applySelectedTheme, h]
  · intro a t h
    simp [App.applySelectedFont, h]
  · intro a h1 h6
    have h : a.field_index = 1 ∨ a.field_index = 2 ∨ a.field_index = 3 ∨
        a.field_index = 4 ∨ a.field_index = 5 ∨ a.field_index = 6 := by omega
    rcases h with h | h | h | h | h | h <;> simp [App.toggleKeybinding, h]
  · intro a e
    refine ⟨rfl, rfl, ?_⟩
    rw [String.length_append]
    have h21 : ("Error saving config: " : String).length = 21 := rfl
    omega

/-- C9 (witness): the lifecycle at concrete states — applying the first
theme of the initial state, toggling keybinding field 5, and a failed
then successful save. -/
theorem c9_dirty_flag_lifecycle_witness :
    ((App.init.applySelectedTheme).has_changes = true ∧
     (App.init.applySelectedTheme).config.color_scheme = some "Catppuccin Mocha") ∧
    (({ App.init with field_index := 5 }.toggleKeybinding).has_changes = true ∧
     ({ App.init with field_index := 5 }.toggleKeybinding).status_message ≠ none) ∧
    ((App.init.saveConfig (Except.error "disk full")).has_changes = App.init.has_changes ∧
     (App.init.saveConfig (Except.error "disk full")).status_message =
       some ("Error saving config: " ++ "disk full") ∧
     0 < ("Error saving config: " ++ "disk full").length) :=
  ⟨c9_dirty_flag_lifecycle.1 App.init "Catppuccin Mocha" rfl,
   c9_dirty_flag_lifecycle.2.2.2.1 { App.init with field_index := 5 }
     (by decide) (by decide),
   c9_dirty_flag_lifecycle.2.2.2.2.2 App.init "disk full"⟩

/-- C10: quit/confirm transitions.  In Normal mode, `q` or Escape quits
immediately (staying out of Confirm mode) when the dirty flag is unset,
and transitions to Confirm mode without quitting when it is set; from
Confirm mode, `y` sets the quit flag leaving model, baseline and dirty
flag untouched, `s` saves and then sets the quit flag (on success
clearing the dirty flag and replacing the baseline), and `n` or Escape
returns to Normal mode leaving the model unchanged. -/
theorem c10_quit_confirm_transitions :
    (∀ (a : App) (sv : Except String Unit) (k : Key),
      a.input_mode = InputMode.Normal → (k = Key.char 'q' ∨ k = Key.esc) →
      (a.has_changes = false →
        (App.handleKey sv k false a).should_quit = true ∧
        (App.handleKey sv k false a).input_mode = InputMode.Normal ∧
        (App.handleKey sv k false a).config = a.config) ∧
      (a.has_changes = true →
        (App.handleKey sv k false a).input_mode = InputMode.Confirm ∧
        (App.handleKey sv k false a).should_quit = a.should_quit ∧
        (App.handleKey sv k false a).config = a.config)) ∧
    (∀ (a : App) (sv : Except String Unit),
      a.input_mode = InputMode.Confirm →
      (App.handleKey sv (Key.char 'y') false a).should_quit = true ∧
      (App.handleKey sv (Key.char 'y') false a).config = a.config ∧
      (App.handleKey sv (Key.char 'y') false a).original_config = a.original_config ∧
      (App.handleKey sv (Key.char 'y') false a).has_changes = a.has_changes) ∧
    (∀ (a : App) (sv : Except String Unit),
      a.input_mode = InputMode.Confirm →
      (App.handleKey sv (Key.char 's') false a).should_quit = true) ∧
    (∀ a : App, a.input_mode = InputMode.Confirm →
      (App.handleKey (Except.ok ()) (Key.char 's') false a).has_changes = false ∧
      (App.handleKey (Except.ok ()) (Key.char 's') false a).original_config = a.config) ∧
    (∀ (a : App) (e : String), a.input_mode = InputMode.Confirm →
      (App.handleKey (Except.error e) (Key.char 's') false a).has_changes =
        a.has_changes) ∧
    (∀ (a : App) (sv : Except String Unit) (k : Key),
      a.input_mode = InputMode.Confirm → (k = Key.char 'n' ∨ k = Key.esc) →
      (App.handleKey sv k false a).input_mode = InputMode.Normal ∧
      (App.handleKey sv k false a).config = a.config ∧
      (App.handleKey sv k false a).has_changes = a.has_changes ∧
      (App.handleKey sv k false a).should_quit = a.should_quit) := by
  refine ⟨?_, ?_, ?_, ?_, ?_, ?_⟩
  · intro a sv k h hk
    constructor
    · intro hd
      rcases hk with rfl | rfl <;>
        simp [App.handleKey, h, App.handleNormalMode, App.themesIntercept,
          App.fontsIntercept, App.normalMain, App.quitRequest, hd]
    · intro hd
      rcases hk with rfl | rfl <;>
        simp [App.handleKey, h, App.handleNormalMode, App.themesIntercept,
          App.fontsIntercept, App.normalMain, App.quitRequest, hd]
  · intro a sv h
    simp [App.handleKey, h, App.handleConfirmMode]
  · intro a sv h
    cases sv <;> simp [App.handleKey, h, App.handleConfirmMode, App.saveConfig]
  · intro a h
    simp [App.handleKey, h, App.handleConfirmMode, App.saveConfig]
  · intro a e h
    simp [App.handleKey, h, App.handleConfirmMode, App.saveConfig]
  · intro a sv k h hk
    rcases hk with rfl | rfl <;> simp [App.handleKey, h, App.handleConfirmMode]

/-- C10 (witness): the transitions at concrete clean and dirty initial
states. -/
theorem c10_quit_confirm_transitions_witness :
    ((App.handleKey (Except.ok ()) (Key.char 'q') false App.init).should_quit = true) ∧
    ((App.handleKey (Except.ok ()) (Key.char 'q') false
        { App.init with has_changes := true }).input_mode = InputMode.Confirm) ∧
    ((App.handleKey (Except.ok ()) (Key.char 'y') false
        { App.init with input_mode := InputMode.Confirm }).should_quit = true) ∧
    ((App.handleKey (Except.ok ()) (Key.char 'n') false
        { App.init with input_mode := InputMode.Confirm }).input_mode =
      InputMode.Normal) :=
  ⟨(c10_quit_confirm_transitions.1 App.init (Except.ok ()) (Key.char 'q') rfl
      (Or.inl rfl)).1 rfl |>.1,
   (c10_quit_confirm_transitions.1 { App.init with has_changes := true } (Except.ok ())
      (Key.char 'q') rfl (Or.inl rfl)).2 rfl |>.1,
   (c10_quit_confirm_transitions.2.1 { App.init with input_mode := InputMode.Confirm }
      (Except.ok ()) rfl).1,
   (c10_quit_confirm_transitions.2.2.2.2.2 { App.init with input_mode := InputMode.Confirm }
      (Except.ok ()) (Key.char 'n') rfl (Or.inl rfl)).1⟩

/-! ## Helper lemmas for the field-index invariant -/

theorem fieldCount_pos (a : App) : 1 ≤ a.getFieldCount := by
  cases h : a.current_panel <;> simp [App.getFieldCount, h]

theorem navigateUp_inv (a : App) (hf : a.field_index ≤ a.getFieldCount) :
    (a.navigateUp).field_index ≤ (a.navigateUp).getFieldCount ∧
    (a.navigateUp).input_mode = a.input_mode := by
  unfold App.navigateUp
  split_ifs with h1 h2
  · exact ⟨by simp [App.getFieldCount, h1], rfl⟩
  · exact ⟨hf, rfl⟩
  · refine ⟨?_, rfl⟩
    show a.field_index - 1 ≤ a.getFieldCount
    omega

theorem navigateDown_inv (a : App) (hf : a.field_index ≤ a.getFieldCount) :
    (a.navigateDown).field_index ≤ (a.navigateDown).getFieldCount ∧
    (a.navigateDown).input_mode = a.input_mode := by
  unfold App.navigateDown
  split_ifs with h1 h2 h3
  · exact ⟨by simp [App.getFieldCount, h1], rfl⟩
  · exact ⟨hf, rfl⟩
  · refine ⟨?_, rfl⟩
    show a.field_index + 1 ≤ a.getFieldCount
    omega
  · exact ⟨hf, rfl⟩

theorem nextField_inv (a : App) :
    (a.nextField).field_index ≤ (a.nextField).getFieldCount ∧
    (a.nextField).input_mode = a.input_mode := by
  unfold App.nextField
  split_ifs with h1
  · refine ⟨?_, rfl⟩
    show a.field_index + 1 ≤ a.getFieldCount
    omega
  · refine ⟨?_, rfl⟩
    show 1 ≤ a.getFieldCount
    exact fieldCount_pos a

theorem prevField_inv (a : App) (hf : a.field_index ≤ a.getFieldCount) :
    (a.prevField).field_index ≤ (a.prevField).getFieldCount ∧
    (a.prevField).input_mode = a.input_mode := by
  unfold App.prevField
  split_ifs with h1
  · refine ⟨?_, rfl⟩
    show a.field_index - 1 ≤ a.getFieldCount
    omega
  · refine ⟨?_, rfl⟩
    show a.getFieldCount ≤ a.getFieldCount
    exact le_refl _

theorem themeUp_fc (a : App) :
    (a.themeUp).field_index = a.field_index ∧ (a.themeUp).getFieldCount = a.getFieldCount ∧
    (a.themeUp).input_mode = a.input_mode := by
  unfold App.themeUp
  split_ifs <;> exact ⟨rfl, rfl, rfl⟩

theorem themeDown_fc (a : App) :
    (a.themeDown).field_index = a.field_index ∧
    (a.themeDown).getFieldCount = a.getFieldCount ∧
    (a.themeDown).input_mode = a.input_mode := by
  unfold App.themeDown
  split_ifs <;> exact ⟨rfl, rfl, rfl⟩

theorem normal_step_inv (a : App) (sv : Except String Unit) (k : Key) (hk : navKey k)
    (hf : a.field_index ≤ a.getFieldCount) :
    (a.handleNormalMode sv k false).field_index ≤
      (a.handleNormalMode sv k false).getFieldCount ∧
    (a.handleNormalMode sv k false).input_mode = a.input_mode := by
  have hFonts : a.current_panel = Panel.Fonts → a.getFieldCount = 5 := fun h => by
    simp [App.getFieldCount, h]
  rcases hk with rfl | rfl | rfl | rfl <;> (unfold App.handleNormalMode; split_ifs with hT hF)
  · show (a.themeUp).field_index ≤ (a.themeUp).getFieldCount ∧
      (a.themeUp).input_mode = a.input_mode
    rw [(themeUp_fc a).1, (themeUp_fc a).2.1, (themeUp_fc a).2.2]
    exact ⟨hf, rfl⟩
  · exfalso
    rw [hFonts hF.1] at hf
    omega
  · exact navigateUp_inv a hf
  · show (a.themeDown).field_index ≤ (a.themeDown).getFieldCount ∧
      (a.themeDown).input_mode = a.input_mode
    rw [(themeDown_fc a).1, (themeDown_fc a).2.1, (themeDown_fc a).2.2]
    exact ⟨hf, rfl⟩
  · exfalso
    rw [hFonts hF.1] at hf
    omega
  · exact navigateDown_inv a hf
  · exact nextField_inv a
  · exfalso
    rw [hFonts hF.1] at hf
    omega
  · exact nextField_inv a
  · exact prevField_inv a hf
  · exfalso
    rw [hFonts hF.1] at hf
    omega
  · exact prevField_inv a hf

theorem handleKey_nav_inv (a : App) (sv : Except String Unit) (k : Key)
    (hm : a.input_mode = InputMode.Normal) (hk : navKey k)
    (hf : a.field_index ≤ a.getFieldCount) :
    (App.handleKey sv k false a).field_index ≤ (App.handleKey sv k false a).getFieldCount ∧
    (App.handleKey sv k false a).input_mode = InputMode.Normal := by
  have e : App.handleKey sv k false a =
      App.handleNormalMode sv k false { a with status_message := none } := by
    simp only [App.handleKey, hm]
  rw [e]
  have h2 := normal_step_inv { a with status_message := none } sv k hk hf
  exact ⟨h2.1, h2.2.trans hm⟩

theorem applyKeys_nav_inv (sv : Except String Unit) (ks : List Key) :
    ∀ a : App, a.input_mode = InputMode.Normal → (∀ k ∈ ks, navKey k) →
    a.field_index ≤ a.getFieldCount →
    (App.applyKeys sv a ks).field_index ≤ (App.applyKeys sv a ks).getFieldCount ∧
    (App.applyKeys sv a ks).input_mode = InputMode.Normal := by
  induction ks with
  | nil => exact fun a hm _ hf => ⟨hf, hm⟩
  | cons k ks ih =>
    intro a hm hks hf
    have h1 := handleKey_nav_inv a sv k hm (hks k (List.mem_cons_self k ks)) hf
    have h2 := ih (App.handleKey sv k false a) h1.2
      (fun k2 hk2 => hks k2 (List.mem_cons_of_mem k hk2)) h1.1
    exact h2

theorem tab_wrap (a : App) (sv : Except String Unit)
    (hm : a.input_mode = InputMode.Normal) (hf : a.field_index = a.getFieldCount) :
    (App.handleKey sv Key.tab false a).field_index = 1 := by
  have e : App.handleKey sv Key.tab false a =
      App.handleNormalMode sv Key.tab false { a with status_message := none } := by
    simp only [App.handleKey, hm]
  rw [e]
  have hFonts : a.current_panel = Panel.Fonts → a.getFieldCount = 5 := fun h => by
    simp [App.getFieldCount, h]
  unfold App.handleNormalMode
  split_ifs with hT hF
  · show (App.nextField { a with status_message := none }).field_index = 1
    unfold App.nextField
    split_ifs with h1
    · exact absurd h1 (by show ¬ a.field_index < a.getFieldCount; omega)
    · rfl
  · exfalso
    have h5 := hFonts hF.1
    have h6 : 5 < a.field_index := hF.2
    omega
  · show (App.nextField { a with status_message := none }).field_index = 1
    unfold App.nextField
    split_ifs with h1
    · exact absurd h1 (by show ¬ a.field_index < a.getFieldCount; omega)
    · rfl

theorem backTab_wrap (a : App) (sv : Except String Unit)
    (hm : a.input_mode = InputMode.Normal) (hf : a.field_index ≤ 1) :
    (App.handleKey sv Key.backTab false a).field_index = a.getFieldCount := by
  have e : App.handleKey sv Key.backTab false a =
      App.handleNormalMode sv Key.backTab false { a with status_message := none } := by
    simp only [App.handleKey, hm]
  rw [e]
  have hFonts : a.current_panel = Panel.Fonts → a.getFieldCount = 5 := fun h => by
    simp [App.getFieldCount, h]
  unfold App.handleNormalMode
  split_ifs with hT hF
  · show (App.prevField { a with status_message := none }).field_index = a.getFieldCount
    unfold App.prevField
    split_ifs with h1
    · exact absurd h1 (by show ¬ 1 < a.field_index; omega)
    · rfl
  · exfalso
    have h6 : 5 < a.field_index := hF.2
    omega
  · show (App.prevField { a with status_message := none }).field_index = a.getFieldCount
    unfold App.prevField
    split_ifs with h1
    · exact absurd h1 (by show ¬ 1 < a.field_index; omega)
    · rfl

/-- C8 (counterexample): the claim fails from a reachable state.  From
the initial state, Down selects the Fonts panel, Enter focuses its first
field, and Enter again jumps into the font selector at `field_index = 6`,
while `field_count(Fonts) = 5`; a subsequent Up operation (handled by the
font-selector interception) leaves `field_index = 6`, outside
`[0, field_count]`. -/
theorem c8_counterexample :
    ((App.applyKeys (Except.ok ()) App.init [Key.down, Key.enter, Key.enter]).current_panel
       = Panel.Fonts) ∧
    ((App.applyKeys (Except.ok ()) App.init [Key.down, Key.enter, Key.enter]).input_mode
       = InputMode.Normal) ∧
    ((App.applyKeys (Except.ok ()) App.init
       [Key.down, Key.enter, Key.enter, Key.up]).field_index = 6) ∧
    ((App.applyKeys (Except.ok ()) App.init
       [Key.down, Key.enter, Key.enter, Key.up]).getFieldCount = 5) ∧
    ¬ ((App.applyKeys (Except.ok ()) App.init
         [Key.down, Key.enter, Key.enter, Key.up]).field_index ≤
       (App.applyKeys (Except.ok ()) App.init
         [Key.down, Key.enter, Key.enter, Key.up]).getFieldCount) :=
  ⟨rfl, rfl, rfl, rfl, by decide⟩

/-- C8 (amended): starting from any state whose `field_index` already
lies within `[0, field_count(panel)]`, every Up/Down/Tab/Shift-Tab
operation in Normal mode — and hence any finite sequence of them — keeps
`field_index` within `[0, field_count(panel)]` (and keeps Normal mode);
Tab performed when `field_index = field_count(panel)` sets it to 1 (never
0), and Shift-Tab performed when `field_index ≤ 1` sets it to
`field_count(panel)`. -/
theorem c8_field_index_invariant :
    (∀ (a : App) (sv : Except String Unit) (k : Key),
      a.input_mode = InputMode.Normal → navKey k →
      a.field_index ≤ a.getFieldCount →
      (App.handleKey sv k false a).field_index ≤
        (App.handleKey sv k false a).getFieldCount ∧
      (App.handleKey sv k false a).input_mode = InputMode.Normal) ∧
    (∀ (sv : Except String Unit) (ks : List Key) (a : App),
      a.input_mode = InputMode.Normal → (∀ k ∈ ks, navKey k) →
      a.field_index ≤ a.getFieldCount →
      (App.applyKeys sv a ks).field_index ≤ (App.applyKeys sv a ks).getFieldCount) ∧
    (∀ (a : App) (sv : Except String Unit),
      a.input_mode = InputMode.Normal → a.field_index = a.getFieldCount →
      (App.handleKey sv Key.tab false a).field_index = 1) ∧
    (∀ (a : App) (sv : Except String Unit),
      a.input_mode = InputMode.Normal → a.field_index ≤ 1 →
      (App.handleKey sv Key.backTab false a).field_index = a.getFieldCount) :=
  ⟨fun a sv k hm hk hf => handleKey_nav_inv a sv k hm hk hf,
   fun sv ks a hm hks hf => (applyKeys_nav_inv sv ks a hm hks hf).1,
   fun a sv hm hf => tab_wrap a sv hm hf,
   fun a sv hm hf => backTab_wrap a sv hm hf⟩

/-- C8 (witness): the invariant along a concrete Tab/Down/Shift-Tab
sequence from the initial state, and the Shift-Tab wrap at the sidebar
focus of the initial state. -/
theorem c8_field_index_invariant_witness :
    ((App.applyKeys (Except.ok ()) App.init
        [Key.tab, Key.down, Key.backTab]).field_index ≤
      (App.applyKeys (Except.ok ()) App.init
        [Key.tab, Key.down, Key.backTab]).getFieldCount) ∧
    ((App.handleKey (Except.ok ()) Key.backTab false App.init).field_index =
      App.init.getFieldCount) :=
  ⟨c8_field_index_invariant.2.1 (Except.ok ()) [Key.tab, Key.down, Key.backTab] App.init
     rfl (by intro k hk; fin_cases hk <;> simp [navKey]) (by decide),
   c8_field_index_invariant.2.2.2 App.init (Except.ok ()) rfl (by decide)⟩
